import Mathlib

/-!
Verification of the generative-media orchestrator core
(`services/orchestrator/src`): the UIR validator and stable hash, the
stage planner, the in-memory job store, the scheduler worker loop, and
the job snapshot endpoint.  Python values are embedded as a JSON value
type, Python dicts as association lists with unique keys, and fallible
Python code as `Except`.
-/

namespace Orch

/-- A JSON value as produced by `json.loads` / consumed by the
orchestrator.  Python distinguishes `int` and `float`; floats are
modelled as rationals (the orchestrator only ever handles finite
decimal floats). -/
inductive JValue where
  | null : JValue
  | bool (b : Bool) : JValue
  | int (n : Int) : JValue
  | float (q : ℚ) : JValue
  | str (s : String) : JValue
  | arr (elems : List JValue) : JValue
  | obj (fields : List (String × JValue)) : JValue
  deriving Inhabited

/-- A Python dict with string keys (keys assumed unique, as in a dict). -/
abbrev JObj := List (String × JValue)

/-- `d.get(k)` on a Python dict: first binding of `k`. -/
def jlookup (fields : JObj) (k : String) : Option JValue :=
  match fields.find? (fun kv => kv.1 = k) with
  | some kv => some kv.2
  | none => none

/-- `d.get(k, default)`. -/
def jlookupD (fields : JObj) (k : String) (d : JValue) : JValue :=
  (jlookup fields k).getD d

/-- Python truthiness of a JSON value (`bool(v)`). -/
def pyTruthy : JValue → Bool
  | .null => false
  | .bool b => b
  | .int n => decide (n ≠ 0)
  | .float q => decide (q ≠ 0)
  | .str s => s != ""
  | .arr xs => !xs.isEmpty
  | .obj fs => !fs.isEmpty

/-- ASCII lower-casing of one character. -/
def asciiLower (c : Char) : Char :=
  if 65 ≤ c.toNat ∧ c.toNat ≤ 90 then Char.ofNat (c.toNat + 32) else c

/-- Whitespace as stripped by `str.strip()` (ASCII subset). -/
def isPySpace (c : Char) : Bool :=
  c = ' ' || c = '\t' || c = '\n' || c = '\r' ||
  c = Char.ofNat 11 || c = Char.ofNat 12

/-- `str.strip().lower()` as used by the stage planner on target names
(ASCII case folding; the orchestrator's module names are ASCII). -/
def pyNormalize (s : String) : String :=
  String.mk ((((s.data.dropWhile isPySpace).reverse.dropWhile
    isPySpace).reverse).map asciiLower)

/-- Code-point comparison of strings, as Python's `<` on `str`. -/
def strLtb : List Char → List Char → Bool
  | [], [] => false
  | [], _ :: _ => true
  | _ :: _, [] => false
  | a :: as, b :: bs =>
    if a.toNat < b.toNat then true
    else if b.toNat < a.toNat then false
    else strLtb as bs

def keyLt (a b : String) : Bool := strLtb a.data b.data

/-- Hexadecimal digit (lowercase). -/
def hexDigit (n : Nat) : Char :=
  if n < 10 then Char.ofNat (48 + n) else Char.ofNat (87 + n)

/-- Four-digit lowercase hex, as in a JSON `\uXXXX` escape. -/
def hex4 (n : Nat) : String :=
  String.mk [hexDigit (n / 4096 % 16), hexDigit (n / 256 % 16),
             hexDigit (n / 16 % 16), hexDigit (n % 16)]

/-- Decimal digits of a fraction `num/den` (0 < num < den), up to
`fuel` digits.  Python's `repr` prints the shortest exact decimal of a
float; the floats handled by the orchestrator have short exact decimal
expansions, which this reproduces. -/
def fracDigits : Nat → Nat → Nat → String
  | 0, _, _ => ""
  | _, 0, _ => ""
  | fuel + 1, num, den =>
    let num10 := num * 10
    toString (num10 / den) ++ fracDigits fuel (num10 % den) den

/-- Rendering of a non-negative float. -/
def renderFloatNN (q : ℚ) : String :=
  let ip : Nat := q.num.toNat / q.den
  let rem : Nat := q.num.toNat % q.den
  if rem = 0 then toString ip ++ ".0"
  else toString ip ++ "." ++ fracDigits 17 rem q.den

/-- Python's `repr`/`json` rendering of a (finite decimal) float. -/
def renderFloat (q : ℚ) : String :=
  if q < 0 then "-" ++ renderFloatNN (-q) else renderFloatNN q

/-- JSON string escaping with `ensure_ascii=True` (as in `json.dumps`). -/
def jsonEscapeChar (c : Char) : String :=
  if c = '"' then "\\\""
  else if c = '\\' then "\\\\"
  else if c = '\n' then "\\n"
  else if c = '\r' then "\\r"
  else if c = '\t' then "\\t"
  else if c = Char.ofNat 8 then "\\b"
  else if c = Char.ofNat 12 then "\\f"
  else if c.toNat < 32 then "\\u" ++ hex4 c.toNat
  else if c.toNat ≤ 126 then String.singleton c
  else if c.toNat ≤ 65535 then "\\u" ++ hex4 c.toNat
  else
    let v := c.toNat - 65536
    "\\u" ++ hex4 (55296 + v / 1024) ++ "\\u" ++ hex4 (56320 + v % 1024)

def jsonEscape (s : String) : String :=
  String.join (s.data.map jsonEscapeChar)

/-- Insert a key/value pair into an assoc list sorted by key
(`json.dumps(..., sort_keys=True)` orders dict keys). -/
def insertByKey (kv : String × JValue) : JObj → JObj
  | [] => [kv]
  | kv2 :: rest =>
    if keyLt kv.1 kv2.1 then kv :: kv2 :: rest else kv2 :: insertByKey kv rest

def sortByKey : JObj → JObj
  | [] => []
  | kv :: rest => insertByKey kv (sortByKey rest)

mutual
/-- Recursively sort every object's keys (the effect of
`json.dumps(..., sort_keys=True)` on the tree, applied up front). -/
def sortKeysDeep : JValue → JValue
  | .obj fields => .obj (sortByKey (sortKeysObj fields))
  | .arr elems => .arr (sortKeysArr elems)
  | .null => .null
  | .bool b => .bool b
  | .int n => .int n
  | .float q => .float q
  | .str s => .str s

def sortKeysArr : List JValue → List JValue
  | [] => []
  | v :: vs => sortKeysDeep v :: sortKeysArr vs

def sortKeysObj : JObj → JObj
  | [] => []
  | (k, v) :: kvs => (k, sortKeysDeep v) :: sortKeysObj kvs
end

mutual
/-- Serialization of an already key-sorted tree with
`separators=(",", ":")` and `ensure_ascii=True`. -/
def dumpsRaw : JValue → String
  | .null => "null"
  | .bool true => "true"
  | .bool false => "false"
  | .int n => toString n
  | .float q => renderFloat q
  | .str s => "\"" ++ jsonEscape s ++ "\""
  | .arr xs => "[" ++ dumpsArr xs ++ "]"
  | .obj fs => "\x7b" ++ dumpsObj fs ++ "\x7d"

def dumpsArr : List JValue → String
  | [] => ""
  | [v] => dumpsRaw v
  | v :: v2 :: vs => dumpsRaw v ++ "," ++ dumpsArr (v2 :: vs)

def dumpsObj : JObj → String
  | [] => ""
  | [(k, v)] => "\"" ++ jsonEscape k ++ "\":" ++ dumpsRaw v
  | (k, v) :: kv2 :: kvs =>
    "\"" ++ jsonEscape k ++ "\":" ++ dumpsRaw v ++ "," ++ dumpsObj (kv2 :: kvs)
end

/-- `json.dumps(value, sort_keys=True, ensure_ascii=True,
separators=(",", ":"))` — the canonical serialization of `stable_hash`
(uir/hash.py lines 14-19). -/
def dumpsCanonical (v : JValue) : String := dumpsRaw (sortKeysDeep v)

mutual
/-- `_strip_keys` (uir/hash.py lines 33-42): remove every binding of a
key in `dropKeys` from every object in the tree, recursively. -/
def stripKeys (dropKeys : List String) : JValue → JValue
  | .obj fields => .obj (stripKeysObj dropKeys fields)
  | .arr elems => .arr (stripKeysArr dropKeys elems)
  | .null => .null
  | .bool b => .bool b
  | .int n => .int n
  | .float q => .float q
  | .str s => .str s

def stripKeysArr (dropKeys : List String) : List JValue → List JValue
  | [] => []
  | v :: vs => stripKeys dropKeys v :: stripKeysArr dropKeys vs

def stripKeysObj (dropKeys : List String) : JObj → JObj
  | [] => []
  | (k, v) :: kvs =>
    if k ∈ dropKeys then stripKeysObj dropKeys kvs
    else (k, stripKeys dropKeys v) :: stripKeysObj dropKeys kvs
end

mutual
/-- Python `repr` of a JSON value, used only through `str` below.
String escaping inside reprs is elided: reprs of containers always
contain a bracket and can never equal a module name, which is all the
planner compares them against. -/
def pyRepr : JValue → String
  | .null => "None"
  | .bool true => "True"
  | .bool false => "False"
  | .int n => toString n
  | .float q => renderFloat q
  | .str s => "'" ++ s ++ "'"
  | .arr xs => "[" ++ pyReprArr xs ++ "]"
  | .obj fs => "\x7b" ++ pyReprObj fs ++ "\x7d"

def pyReprArr : List JValue → String
  | [] => ""
  | [v] => pyRepr v
  | v :: v2 :: vs => pyRepr v ++ ", " ++ pyReprArr (v2 :: vs)

def pyReprObj : JObj → String
  | [] => ""
  | [(k, v)] => "'" ++ k ++ "': " ++ pyRepr v
  | (k, v) :: kv2 :: kvs =>
    "'" ++ k ++ "': " ++ pyRepr v ++ ", " ++ pyReprObj (kv2 :: kvs)
end

/-- Python `str(value)` on a JSON value. -/
def pyStr : JValue → String
  | .str s => s
  | .bool true => "True"
  | .bool false => "False"
  | .int n => toString n
  | .float q => renderFloat q
  | .null => "None"
  | .arr xs => pyRepr (.arr xs)
  | .obj fs => pyRepr (.obj fs)

/-! ## Stage planner (planner/stages.py) -/

def PLANNING : String := "PLANNING"
def RUNNING_SCENE : String := "RUNNING_SCENE"
def RUNNING_MOTION : String := "RUNNING_MOTION"
def RUNNING_MUSIC : String := "RUNNING_MUSIC"
def RUNNING_CHARACTER : String := "RUNNING_CHARACTER"
def COMPOSING_PREVIEW : String := "COMPOSING_PREVIEW"
def EXPORTING_VIDEO : String := "EXPORTING_VIDEO"

/-- The raw `intent.targets` list (empty when missing or not a list). -/
def rawTargets (uir : JValue) : List JValue :=
  match uir with
  | .obj fields =>
    match jlookup fields "intent" with
    | some (.obj intent) =>
      -- `intent.get("targets") or []`: a falsy value is replaced by []
      match jlookup intent "targets" with
      | some (.arr ts) => if (JValue.arr ts) |> pyTruthy then ts else []
      | _ => []
    | _ => []
  | _ => []

/-- `_intent_targets` (stages.py lines 37-42): the set
`{str(value).strip().lower() for value in raw_targets if value}`,
here as a list whose membership is the set's membership. -/
def intentTargets (uir : JValue) : List String :=
  ((rawTargets uir).filter pyTruthy).map (fun v => pyNormalize (pyStr v))

/-- `_modules_section` (stages.py lines 45-49). -/
def modulesSection (uir : JValue) : JObj :=
  match uir with
  | .obj fields =>
    match jlookup fields "modules" with
    | some (.obj modules) => modules
    | _ => []
  | _ => []

/-- `_module_enabled` (stages.py lines 52-56): `bool(entry.get("enabled"))`
for a dict entry, `False` otherwise. -/
def moduleEnabled (modules : JObj) (name : String) : Bool :=
  match jlookup modules name with
  | some (.obj entry) => pyTruthy (jlookupD entry "enabled" .null)
  | _ => false

/-- `_is_module_selected` (stages.py lines 59-60). -/
def isModuleSelected (modules : JObj) (targets : List String) (name : String) : Bool :=
  moduleEnabled modules name && targets.contains name

/-- `plan_stages` (stages.py lines 14-34). -/
def plan_stages (uir : JValue) : List String :=
  let targets := intentTargets uir
  let modules := modulesSection uir
  let stages := [PLANNING]
  let stages := if isModuleSelected modules targets "scene"
    then stages ++ [RUNNING_SCENE] else stages
  let stages := if isModuleSelected modules targets "motion"
    then stages ++ [RUNNING_MOTION] else stages
  let stages := if isModuleSelected modules targets "music"
    then stages ++ [RUNNING_MUSIC] else stages
  let stages := if isModuleSelected modules targets "character"
    then stages ++ [RUNNING_CHARACTER] else stages
  let stages := if isModuleSelected modules targets "preview"
    then stages ++ [COMPOSING_PREVIEW] else stages
  let stages := if isModuleSelected modules targets "export"
    then stages ++ [EXPORTING_VIDEO] else stages
  stages

mutual
/-- Equality test on JSON values (needed only to test list membership
of a string literal). -/
def jvalueBeq : JValue → JValue → Bool
  | .null, .null => true
  | .bool a, .bool b => a == b
  | .int a, .int b => a == b
  | .float a, .float b => a == b
  | .str a, .str b => a == b
  | .arr a, .arr b => jvalueBeqArr a b
  | .obj a, .obj b => jvalueBeqObj a b
  | _, _ => false

def jvalueBeqArr : List JValue → List JValue → Bool
  | [], [] => true
  | a :: as, b :: bs => jvalueBeq a b && jvalueBeqArr as bs
  | _, _ => false

def jvalueBeqObj : JObj → JObj → Bool
  | [], [] => true
  | (k, v) :: as, (k2, v2) :: bs => k == k2 && jvalueBeq v v2 && jvalueBeqObj as bs
  | _, _ => false
end

/-- The claim's reading of the planner rule (spec §4.2): `PLANNING`
first, then for each of scene, motion, music, character, preview,
export in that order, the matching stage iff the module's `enabled`
flag is the boolean `true` and the module name occurs literally in
`intent.targets`. -/
def claimModuleSelected (uir : JValue) (name : String) : Bool :=
  (match jlookup (modulesSection uir) name with
   | some (.obj entry) => jvalueBeq (jlookupD entry "enabled" .null) (.bool true)
   | _ => false) &&
  (rawTargets uir).any (fun v => jvalueBeq v (.str name))

/-- The stage list the claim describes, built with the claim's
selection rule in the claim's order. -/
def plan_stages_claim (uir : JValue) : List String :=
  let stages := [PLANNING]
  let stages := if claimModuleSelected uir "scene"
    then stages ++ [RUNNING_SCENE] else stages
  let stages := if claimModuleSelected uir "motion"
    then stages ++ [RUNNING_MOTION] else stages
  let stages := if claimModuleSelected uir "music"
    then stages ++ [RUNNING_MUSIC] else stages
  let stages := if claimModuleSelected uir "character"
    then stages ++ [RUNNING_CHARACTER] else stages
  let stages := if claimModuleSelected uir "preview"
    then stages ++ [COMPOSING_PREVIEW] else stages
  let stages := if claimModuleSelected uir "export"
    then stages ++ [EXPORTING_VIDEO] else stages
  stages

/-! ## SHA-256 (`hashlib.sha256` over the UTF-8 canonical payload) -/

/-- Truncation to a 32-bit word. -/
def w32 (n : Nat) : Nat := n % 4294967296

/-- 32-bit right rotation. -/
def rotr (n x : Nat) : Nat := w32 ((x >>> n) ||| (x <<< (32 - n)))

/-- UTF-8 encoding of one character. -/
def utf8Char (c : Char) : List Nat :=
  let n := c.toNat
  if n < 128 then [n]
  else if n < 2048 then [192 + n / 64, 128 + n % 64]
  else if n < 65536 then [224 + n / 4096, 128 + n / 64 % 64, 128 + n % 64]
  else [240 + n / 262144, 128 + n / 4096 % 64, 128 + n / 64 % 64, 128 + n % 64]

def utf8Bytes (s : String) : List Nat := (s.data.map utf8Char).flatten

def sha256K : List Nat :=
  [1116352408, 1899447441, 3049323471, 3921009573, 961987163, 1508970993,
   2453635748, 2870763221, 3624381080, 310598401, 607225278, 1426881987,
   1925078388, 2162078206, 2614888103, 3248222580, 3835390401, 4022224774,
   264347078, 604807628, 770255983, 1249150122, 1555081692, 1996064986,
   2554220882, 2821834349, 2952996808, 3210313671, 3336571891, 3584528711,
   113926993, 338241895, 666307205, 773529912, 1294757372, 1396182291,
   1695183700, 1986661051, 2177026350, 2456956037, 2730485921, 2820302411,
   3259730800, 3345764771, 3516065817, 3600352804, 4094571909, 275423344,
   430227734, 506948616, 659060556, 883997877, 958139571, 1322822218,
   1537002063, 1747873779, 1955562222, 2024104815, 2227730452, 2361852424,
   2428436474, 2756734187, 3204031479, 3329325298]

def sha256H0 : List Nat :=
  [1779033703, 3144134277, 1013904242, 2773480762, 1359893119, 2600822924,
   528734635, 1541459225]

/-- Message padding: `0x80`, zeros, then the 64-bit big-endian bit
length, to a multiple of 64 bytes. -/
def sha256pad (msg : List Nat) : List Nat :=
  let L := msg.length
  let k := (119 - L % 64) % 64
  msg ++ [128] ++ List.replicate k 0 ++
    (List.range 8).map (fun i => ((8 * L) >>> (8 * (7 - i))) % 256)

/-- Big-endian 32-bit words of the padded message. -/
def sha256Words (padded : List Nat) : List Nat :=
  (List.range (padded.length / 4)).map (fun i =>
    ((padded.getD (4 * i) 0) <<< 24) + ((padded.getD (4 * i + 1) 0) <<< 16) +
    ((padded.getD (4 * i + 2) 0) <<< 8) + padded.getD (4 * i + 3) 0)

/-- Message schedule: extend 16 words to 64. -/
def sha256Schedule (chunk : List Nat) : List Nat :=
  (List.range 48).foldl
    (fun w _ =>
      let t := w.length
      let s0 := (rotr 7 (w.getD (t - 15) 0)) ^^^ (rotr 18 (w.getD (t - 15) 0)) ^^^
        ((w.getD (t - 15) 0) >>> 3)
      let s1 := (rotr 17 (w.getD (t - 2) 0)) ^^^ (rotr 19 (w.getD (t - 2) 0)) ^^^
        ((w.getD (t - 2) 0) >>> 10)
      w ++ [w32 (w.getD (t - 16) 0 + s0 + w.getD (t - 7) 0 + s1)])
    chunk

/-- One compression round. -/
def sha256Round (st : List Nat) (kw : Nat × Nat) : List Nat :=
  match st with
  | [a, b, c, d, e, f, g, h] =>
    let s1 := (rotr 6 e) ^^^ (rotr 11 e) ^^^ (rotr 25 e)
    let ch := (e &&& f) ^^^ ((4294967295 - e) &&& g)
    let temp1 := w32 (h + s1 + ch + kw.1 + kw.2)
    let s0 := (rotr 2 a) ^^^ (rotr 13 a) ^^^ (rotr 22 a)
    let maj := (a &&& b) ^^^ (a &&& c) ^^^ (b &&& c)
    let temp2 := w32 (s0 + maj)
    [w32 (temp1 + temp2), a, b, c, w32 (d + temp1), e, f, g]
  | st => st

/-- Process one 16-word chunk. -/
def sha256Chunk (h : List Nat) (chunk : List Nat) : List Nat :=
  let w := sha256Schedule chunk
  let st := (sha256K.zip w).foldl sha256Round h
  (h.zip st).map (fun p => w32 (p.1 + p.2))

def sha256Digest (msg : List Nat) : List Nat :=
  let words := sha256Words (sha256pad msg)
  let nChunks := words.length / 16
  (List.range nChunks).foldl
    (fun h i => sha256Chunk h ((words.drop (16 * i)).take 16)) sha256H0

/-- Eight-digit lowercase hex of a 32-bit word. -/
def hex8 (n : Nat) : String := hex4 (n / 65536) ++ hex4 (n % 65536)

/-- `hashlib.sha256(payload.encode("utf-8")).hexdigest()`. -/
def sha256hex (s : String) : String :=
  String.join ((sha256Digest (utf8Bytes s)).map hex8)

mutual
/-- Does a key occur (at any depth) in the tree? -/
def hasKeyDeep (key : String) : JValue → Bool
  | .obj fields => hasKeyDeepObj key fields
  | .arr elems => hasKeyDeepArr key elems
  | _ => false

def hasKeyDeepArr (key : String) : List JValue → Bool
  | [] => false
  | v :: vs => hasKeyDeep key v || hasKeyDeepArr key vs

def hasKeyDeepObj (key : String) : JObj → Bool
  | [] => false
  | (k, v) :: kvs => k = key || hasKeyDeep key v || hasKeyDeepObj key kvs
end

/-! ## UIR model and validator (uir/models.py, uir/validate.py)

The pydantic v1 models are embedded as structures with an `extra`
field (`Config.extra = "allow"` keeps unknown keys).  Parsing embeds
the declared constraints on JSON inputs whose fields carry the
declared JSON types (pydantic's cross-type coercions — e.g. `"1"` to
`1` — are outside the model).  Pydantic accumulates all errors; the
embedding returns the first, so success and failure coincide. -/

/-- Shape check for an ISO-8601 datetime string
(`YYYY-MM-DD[T ]HH:MM:SS` prefix; fraction/offset unconstrained).
`created_at` is kept as its raw string: every verified property either
strips it (`stable_hash`) or ignores it. -/
def isIsoDatetime (s : String) : Bool :=
  match s.data with
  | y1 :: y2 :: y3 :: y4 :: '-' :: m1 :: m2 :: '-' :: d1 :: d2 :: sep ::
      h1 :: h2 :: ':' :: n1 :: n2 :: ':' :: s1 :: s2 :: _ =>
    [y1, y2, y3, y4, m1, m2, d1, d2, h1, h2, n1, n2, s1, s2].all Char.isDigit &&
    (sep = 'T' || sep = ' ')
  | _ => false

/-- A required `constr(min_length=n)` field. -/
def reqStrMin (fields : JObj) (name : String) (minLen : Nat) : Except String String :=
  match jlookup fields name with
  | some (.str s) =>
    if minLen ≤ s.length then .ok s else .error (name ++ ": too short")
  | some _ => .error (name ++ ": not a string")
  | none => .error (name ++ ": field required")

/-- An optional `constr(min_length=n)` field. -/
def optStrMin (fields : JObj) (name : String) (minLen : Nat) :
    Except String (Option String) :=
  match jlookup fields name with
  | none => .ok none
  | some .null => .ok none
  | some (.str s) =>
    if minLen ≤ s.length then .ok (some s) else .error (name ++ ": too short")
  | some _ => .error (name ++ ": not a string")

/-- An `Optional[str]` field with no length bound. -/
def optStrAny (fields : JObj) (name : String) : Except String (Option String) :=
  match jlookup fields name with
  | none => .ok none
  | some .null => .ok none
  | some (.str s) => .ok (some s)
  | some _ => .error (name ++ ": not a string")

/-- A `bool` field with a default. -/
def boolD (fields : JObj) (name : String) (dflt : Bool) : Except String Bool :=
  match jlookup fields name with
  | none => .ok dflt
  | some (.bool b) => .ok b
  | some _ => .error (name ++ ": not a bool")

/-- An `Optional[bool]` field. -/
def optBool (fields : JObj) (name : String) : Except String (Option Bool) :=
  match jlookup fields name with
  | none => .ok none
  | some .null => .ok none
  | some (.bool b) => .ok (some b)
  | some _ => .error (name ++ ": not a bool")

/-- A JSON number as a float (`confloat` accepts ints and floats). -/
def asFloat : JValue → Option ℚ
  | .int n => some (n : ℚ)
  | .float q => some q
  | _ => none

/-- An optional `confloat(ge=lo)` field. -/
def optFloatGe (fields : JObj) (name : String) (lo : ℚ) :
    Except String (Option ℚ) :=
  match jlookup fields name with
  | none => .ok none
  | some .null => .ok none
  | some v =>
    match asFloat v with
    | some q => if lo ≤ q then .ok (some q) else .error (name ++ ": below minimum")
    | none => .error (name ++ ": not a number")

/-- A `confloat(ge=lo)` field with a default. -/
def floatGeD (fields : JObj) (name : String) (lo dflt : ℚ) : Except String ℚ :=
  match jlookup fields name with
  | none => .ok dflt
  | some v =>
    match asFloat v with
    | some q => if lo ≤ q then .ok q else .error (name ++ ": below minimum")
    | none => .error (name ++ ": not a number")

/-- An optional `conint(ge=lo)` field. -/
def optIntGe (fields : JObj) (name : String) (lo : Int) :
    Except String (Option Int) :=
  match jlookup fields name with
  | none => .ok none
  | some .null => .ok none
  | some (.int n) => if lo ≤ n then .ok (some n) else .error (name ++ ": below minimum")
  | some _ => .error (name ++ ": not an integer")

/-- An optional `conint(ge=lo, le=hi)` field. -/
def optIntRange (fields : JObj) (name : String) (lo hi : Int) :
    Except String (Option Int) :=
  match jlookup fields name with
  | none => .ok none
  | some .null => .ok none
  | some (.int n) =>
    if lo ≤ n ∧ n ≤ hi then .ok (some n) else .error (name ++ ": out of range")
  | some _ => .error (name ++ ": not an integer")

/-- A `conint(ge=lo, le=hi)` field with a default. -/
def intRangeD (fields : JObj) (name : String) (lo hi dflt : Int) :
    Except String Int :=
  match jlookup fields name with
  | none => .ok dflt
  | some (.int n) =>
    if lo ≤ n ∧ n ≤ hi then .ok n else .error (name ++ ": out of range")
  | some _ => .error (name ++ ": not an integer")

/-- An `Optional[Dict[str, Any]]` field. -/
def optObjF (fields : JObj) (name : String) : Except String (Option JObj) :=
  match jlookup fields name with
  | none => .ok none
  | some .null => .ok none
  | some (.obj o) => .ok (some o)
  | some _ => .error (name ++ ": not an object")

/-- An `Optional[List[constr(min_length=m)]]` field. -/
def optStrListMin (fields : JObj) (name : String) (minLen : Nat) :
    Except String (Option (List String)) :=
  match jlookup fields name with
  | none => .ok none
  | some .null => .ok none
  | some (.arr xs) =>
    let rec go : List JValue → Except String (List String)
      | [] => .ok []
      | .str s :: rest =>
        if minLen ≤ s.length then
          match go rest with
          | .ok ss => .ok (s :: ss)
          | .error e => .error e
        else .error (name ++ ": element too short")
      | _ :: _ => .error (name ++ ": element not a string")
    (go xs).map some
  | some _ => .error (name ++ ": not a list")

/-- Keys of `fields` not among the declared names (kept by
`Config.extra = "allow"`). -/
def extrasOf (fields : JObj) (declared : List String) : JObj :=
  fields.filter (fun kv => !declared.contains kv.1)

/-- `exclude_none=True` drops extra fields whose value is `None`. -/
def extrasJson (extra : JObj) : JObj :=
  extra.filter (fun kv => !jvalueBeq kv.2 .null)

def jStrOpt (k : String) : Option String → JObj
  | some s => [(k, .str s)]
  | none => []

def jObjOpt (k : String) : Option JObj → JObj
  | some o => [(k, .obj o)]
  | none => []

def jBoolOpt (k : String) : Option Bool → JObj
  | some b => [(k, .bool b)]
  | none => []

def jFloatOpt (k : String) : Option ℚ → JObj
  | some q => [(k, .float q)]
  | none => []

def jIntOpt (k : String) : Option Int → JObj
  | some n => [(k, .int n)]
  | none => []

def jStrListOpt (k : String) : Option (List String) → JObj
  | some ss => [(k, .arr (ss.map JValue.str))]
  | none => []

/-- `class Job` of the UIR (models.py lines 59-65). -/
structure JobSec where
  id : String
  created_at : String
  title : Option String
  client : Option JObj
  tags : Option (List String)
  parent_job_id : Option String
  extra : JObj

def JobSec.declared : List String :=
  ["id", "created_at", "title", "client", "tags", "parent_job_id"]

def parseJobSec : Option JValue → Except String JobSec
  | some (.obj fields) => do
    let id ← reqStrMin fields "id" 1
    let createdAt ←
      match jlookup fields "created_at" with
      | some (.str s) =>
        if isIsoDatetime s then Except.ok s
        else Except.error "created_at: invalid datetime"
      | some _ => Except.error "created_at: invalid datetime"
      | none => Except.error "created_at: field required"
    let title ← optStrMin fields "title" 1
    let client ← optObjF fields "client"
    let tags ← optStrListMin fields "tags" 1
    let parent ← optStrMin fields "parent_job_id" 1
    .ok ⟨id, createdAt, title, client, tags, parent,
      extrasOf fields JobSec.declared⟩
  | some _ => .error "job: not an object"
  | none => .error "job: field required"

def JobSec.toJson (j : JobSec) : JValue :=
  .obj ([("id", .str j.id), ("created_at", .str j.created_at)] ++
    jStrOpt "title" j.title ++ jObjOpt "client" j.client ++
    jStrListOpt "tags" j.tags ++ jStrOpt "parent_job_id" j.parent_job_id ++
    extrasJson j.extra)

/-- `class AssetRef` (models.py lines 49-56). -/
structure AssetRefM where
  id : String
  role : String
  mime : String
  uri : String
  sha256 : Option String
  bytes : Option Int
  meta : Option JObj
  extra : JObj

def AssetRefM.declared : List String :=
  ["id", "role", "mime", "uri", "sha256", "bytes", "meta"]

def parseAssetRef (v : JValue) : Except String AssetRefM :=
  match v with
  | .obj fields => do
    let id ← reqStrMin fields "id" 1
    let role ← reqStrMin fields "role" 1
    let mime ← reqStrMin fields "mime" 1
    let uri ← reqStrMin fields "uri" 1
    let sha ← optStrMin fields "sha256" 1
    let bytes ← optIntGe fields "bytes" 0
    let meta ← optObjF fields "meta"
    .ok ⟨id, role, mime, uri, sha, bytes, meta, extrasOf fields AssetRefM.declared⟩
  | _ => .error "reference: not an object"

def AssetRefM.toJson (a : AssetRefM) : JValue :=
  .obj ([("id", .str a.id), ("role", .str a.role), ("mime", .str a.mime),
    ("uri", .str a.uri)] ++ jStrOpt "sha256" a.sha256 ++
    jIntOpt "bytes" a.bytes ++ jObjOpt "meta" a.meta ++ extrasJson a.extra)

/-- `class Input` (models.py lines 68-72); the `input_` field is
aliased to `input` on the wire. -/
structure InputSec where
  raw_prompt : String
  lang : Option String
  references : Option (List AssetRefM)
  ui_choices : Option JObj
  extra : JObj

def InputSec.declared : List String :=
  ["raw_prompt", "lang", "references", "ui_choices"]

def parseRefList (name : String) : List JValue → Except String (List AssetRefM)
  | [] => .ok []
  | v :: rest => do
    let a ← parseAssetRef v
    let as_ ← parseRefList name rest
    .ok (a :: as_)

def parseInputSec : Option JValue → Except String InputSec
  | some (.obj fields) => do
    let rawPrompt ← reqStrMin fields "raw_prompt" 1
    let lang ← optStrMin fields "lang" 2
    let references ←
      match jlookup fields "references" with
      | none => Except.ok none
      | some .null => Except.ok none
      | some (.arr xs) => (parseRefList "references" xs).map some
      | some _ => Except.error "references: not a list"
    let uiChoices ← optObjF fields "ui_choices"
    .ok ⟨rawPrompt, lang, references, uiChoices, extrasOf fields InputSec.declared⟩
  | some _ => .error "input: not an object"
  | none => .error "input: field required"

def InputSec.toJson (i : InputSec) : JValue :=
  .obj ([("raw_prompt", .str i.raw_prompt)] ++ jStrOpt "lang" i.lang ++
    (match i.references with
     | some refs => [("references", .arr (refs.map AssetRefM.toJson))]
     | none => []) ++
    jObjOpt "ui_choices" i.ui_choices ++ extrasJson i.extra)

/-- `Targets = conlist(constr(min_length=1), min_items=1,
unique_items=True)`. -/
def parseTargets (fields : JObj) : Except String (List String) :=
  match jlookup fields "targets" with
  | some (.arr xs) =>
    let rec go : List JValue → Except String (List String)
      | [] => .ok []
      | .str s :: rest =>
        if 1 ≤ s.length then
          match go rest with
          | .ok ss => .ok (s :: ss)
          | .error e => .error e
        else .error "targets: element too short"
      | _ :: _ => .error "targets: element not a string"
    match go xs with
    | .ok ss =>
      if ss.isEmpty then .error "targets: at least 1 item"
      else if ss.Nodup then .ok ss else .error "targets: duplicate items"
    | .error e => .error e
  | some _ => .error "targets: not a list"
  | none => .error "targets: field required"

/-- `class Intent` (models.py lines 75-81). -/
structure Intent where
  targets : List String
  duration_s : ℚ
  style : Option String
  mood : Option String
  storybeat : Option String
  language_policy : Option JObj
  extra : JObj

def Intent.declared : List String :=
  ["targets", "duration_s", "style", "mood", "storybeat", "language_policy"]

def parseIntent : Option JValue → Except String Intent
  | some (.obj fields) => do
    let targets ← parseTargets fields
    let duration ← floatGeD fields "duration_s" 1 12
    let style ← optStrMin fields "style" 1
    let mood ← optStrMin fields "mood" 1
    let storybeat ← optStrMin fields "storybeat" 1
    let langPolicy ← optObjF fields "language_policy"
    .ok ⟨targets, duration, style, mood, storybeat, langPolicy,
      extrasOf fields Intent.declared⟩
  | some _ => .error "intent: not an object"
  | none => .error "intent: field required"

def Intent.toJson (i : Intent) : JValue :=
  .obj ([("targets", .arr (i.targets.map JValue.str)),
    ("duration_s", .float i.duration_s)] ++ jStrOpt "style" i.style ++
    jStrOpt "mood" i.mood ++ jStrOpt "storybeat" i.storybeat ++
    jObjOpt "language_policy" i.language_policy ++ extrasJson i.extra)

/-- `class RoutingItem` / `class Routing` (models.py lines 84-94). -/
structure RoutingItem where
  provider : Option String
  extra : JObj

def parseRoutingItemOpt (fields : JObj) (name : String) :
    Except String (Option RoutingItem) :=
  match jlookup fields name with
  | none => .ok none
  | some .null => .ok none
  | some (.obj o) => do
    let provider ← optStrMin o "provider" 1
    .ok (some ⟨provider, extrasOf o ["provider"]⟩)
  | some _ => .error (name ++ ": not an object")

def RoutingItem.toJson (r : RoutingItem) : JValue :=
  .obj (jStrOpt "provider" r.provider ++ extrasJson r.extra)

structure Routing where
  scene : Option RoutingItem
  motion : Option RoutingItem
  music : Option RoutingItem
  character : Option RoutingItem
  preview : Option RoutingItem
  «export» : Option RoutingItem
  extra : JObj

def Routing.declared : List String :=
  ["scene", "motion", "music", "character", "preview", "export"]

def parseRouting : Option JValue → Except String (Option Routing)
  | none => .ok none
  | some .null => .ok none
  | some (.obj fields) => do
    let scene ← parseRoutingItemOpt fields "scene"
    let motion ← parseRoutingItemOpt fields "motion"
    let music ← parseRoutingItemOpt fields "music"
    let character ← parseRoutingItemOpt fields "character"
    let preview ← parseRoutingItemOpt fields "preview"
    let exportR ← parseRoutingItemOpt fields "export"
    .ok (some ⟨scene, motion, music, character, preview, exportR,
      extrasOf fields Routing.declared⟩)
  | some _ => .error "routing: not an object"

def jRoutingItemOpt (k : String) : Option RoutingItem → JObj
  | some r => [(k, r.toJson)]
  | none => []

def Routing.toJson (r : Routing) : JValue :=
  .obj (jRoutingItemOpt "scene" r.scene ++ jRoutingItemOpt "motion" r.motion ++
    jRoutingItemOpt "music" r.music ++ jRoutingItemOpt "character" r.character ++
    jRoutingItemOpt "preview" r.preview ++ jRoutingItemOpt "export" r.«export» ++
    extrasJson r.extra)

/-- `class Scene` (models.py lines 97-112), with the
`resolution` validator `W = 2·H`. -/
structure Scene where
  enabled : Bool
  prompt : Option String
  negative_prompt : Option String
  resolution : Int × Int
  seed : Option Int
  steps : Option Int
  cfg_scale : Option ℚ
  upscale : Option Bool
  output : Option JObj
  extra : JObj

def Scene.declared : List String :=
  ["enabled", "prompt", "negative_prompt", "resolution", "seed", "steps",
   "cfg_scale", "upscale", "output"]

def parseResolutionPair (fields : JObj) (name : String)
    (dflt : Option (Int × Int)) : Except String (Option (Int × Int)) :=
  match jlookup fields name with
  | none => .ok dflt
  | some .null =>
    match dflt with
    | none => .ok none
    | some _ => .error (name ++ ": none is not an allowed value")
  | some (.arr [.int w, .int h]) =>
    if 1 ≤ w ∧ 1 ≤ h then .ok (some (w, h)) else .error (name ++ ": below minimum")
  | some _ => .error (name ++ ": not a pair of integers")

def parseScene (fields : JObj) : Except String Scene := do
  let enabled ← boolD fields "enabled" false
  let prompt ← optStrMin fields "prompt" 1
  let negPrompt ← optStrAny fields "negative_prompt"
  let res ←
    match ← parseResolutionPair fields "resolution" (some (2048, 1024)) with
    | some (w, h) =>
      if w = h * 2 then Except.ok (w, h)
      else Except.error "resolution: resolution width must be 2x height"
    | none => Except.error "resolution: none is not an allowed value"
  let seed ← optIntGe fields "seed" 0
  let steps ← optIntGe fields "steps" 1
  let cfgScale ← optFloatGe fields "cfg_scale" 0
  let upscale ← optBool fields "upscale"
  let output ← optObjF fields "output"
  .ok ⟨enabled, prompt, negPrompt, res, seed, steps, cfgScale, upscale,
    output, extrasOf fields Scene.declared⟩

def Scene.toJson (s : Scene) : JValue :=
  .obj ([("enabled", .bool s.enabled)] ++ jStrOpt "prompt" s.prompt ++
    jStrOpt "negative_prompt" s.negative_prompt ++
    [("resolution", .arr [.int s.resolution.1, .int s.resolution.2])] ++
    jIntOpt "seed" s.seed ++ jIntOpt "steps" s.steps ++
    jFloatOpt "cfg_scale" s.cfg_scale ++ jBoolOpt "upscale" s.upscale ++
    jObjOpt "output" s.output ++ extrasJson s.extra)

/-- `class Motion` (models.py lines 115-122). -/
structure Motion where
  enabled : Bool
  prompt : Option String
  duration_s : Option ℚ
  fps : Int
  style : Option String
  action_params : Option JObj
  postprocess : Option JObj
  extra : JObj

def Motion.declared : List String :=
  ["enabled", "prompt", "duration_s", "fps", "style", "action_params",
   "postprocess"]

def parseMotion (fields : JObj) : Except String Motion := do
  let enabled ← boolD fields "enabled" false
  let prompt ← optStrMin fields "prompt" 1
  let duration ← optFloatGe fields "duration_s" 1
  let fps ← intRangeD fields "fps" 15 60 30
  let style ← optStrMin fields "style" 1
  let actionParams ← optObjF fields "action_params"
  let postprocess ← optObjF fields "postprocess"
  .ok ⟨enabled, prompt, duration, fps, style, actionParams, postprocess,
    extrasOf fields Motion.declared⟩

def Motion.toJson (m : Motion) : JValue :=
  .obj ([("enabled", .bool m.enabled)] ++ jStrOpt "prompt" m.prompt ++
    jFloatOpt "duration_s" m.duration_s ++ [("fps", .int m.fps)] ++
    jStrOpt "style" m.style ++ jObjOpt "action_params" m.action_params ++
    jObjOpt "postprocess" m.postprocess ++ extrasJson m.extra)

/-- `class Music` (models.py lines 125-131): note `duration_s` is only
`Optional[confloat(ge=1)]` — no upper bound and no `[3, 60]` band. -/
structure Music where
  enabled : Bool
  prompt : Option String
  duration_s : Option ℚ
  tempo_bpm : Option ℚ
  genre : Option String
  output : Option JObj
  extra : JObj

def Music.declared : List String :=
  ["enabled", "prompt", "duration_s", "tempo_bpm", "genre", "output"]

def parseMusic (fields : JObj) : Except String Music := do
  let enabled ← boolD fields "enabled" false
  let prompt ← optStrMin fields "prompt" 1
  let duration ← optFloatGe fields "duration_s" 1
  let tempo ← optFloatGe fields "tempo_bpm" 1
  let genre ← optStrMin fields "genre" 1
  let output ← optObjF fields "output"
  .ok ⟨enabled, prompt, duration, tempo, genre, output,
    extrasOf fields Music.declared⟩

def Music.toJson (m : Music) : JValue :=
  .obj ([("enabled", .bool m.enabled)] ++ jStrOpt "prompt" m.prompt ++
    jFloatOpt "duration_s" m.duration_s ++ jFloatOpt "tempo_bpm" m.tempo_bpm ++
    jStrOpt "genre" m.genre ++ jObjOpt "output" m.output ++ extrasJson m.extra)

/-- `class Character` (models.py lines 134-138). -/
structure CharacterM where
  enabled : Bool
  character_id : Option String
  style : Option String
  retarget : Option JObj
  extra : JObj

def CharacterM.declared : List String :=
  ["enabled", "character_id", "style", "retarget"]

def parseCharacter (fields : JObj) : Except String CharacterM := do
  let enabled ← boolD fields "enabled" false
  let characterId ← optStrMin fields "character_id" 1
  let style ← optStrMin fields "style" 1
  let retarget ← optObjF fields "retarget"
  .ok ⟨enabled, characterId, style, retarget, extrasOf fields CharacterM.declared⟩

def CharacterM.toJson (c : CharacterM) : JValue :=
  .obj ([("enabled", .bool c.enabled)] ++ jStrOpt "character_id" c.character_id ++
    jStrOpt "style" c.style ++ jObjOpt "retarget" c.retarget ++ extrasJson c.extra)

/-- `class Preview` (models.py lines 141-145). -/
structure Preview where
  enabled : Bool
  camera_preset : Option String
  autoplay : Option Bool
  timeline : Option JObj
  extra : JObj

def Preview.declared : List String :=
  ["enabled", "camera_preset", "autoplay", "timeline"]

def parsePreview (fields : JObj) : Except String Preview := do
  let enabled ← boolD fields "enabled" false
  let cameraPreset ← optStrMin fields "camera_preset" 1
  let autoplay ← optBool fields "autoplay"
  let timeline ← optObjF fields "timeline"
  .ok ⟨enabled, cameraPreset, autoplay, timeline, extrasOf fields Preview.declared⟩

def Preview.toJson (p : Preview) : JValue :=
  .obj ([("enabled", .bool p.enabled)] ++ jStrOpt "camera_preset" p.camera_preset ++
    jBoolOpt "autoplay" p.autoplay ++ jObjOpt "timeline" p.timeline ++
    extrasJson p.extra)

/-- `class Export` (models.py lines 148-154). -/
structure ExportM where
  enabled : Bool
  format : Option String
  resolution : Option (Int × Int)
  fps : Option Int
  bitrate : Option String
  «include» : Option (List String)
  extra : JObj

def ExportM.declared : List String :=
  ["enabled", "format", "resolution", "fps", "bitrate", "include"]

def parseExport (fields : JObj) : Except String ExportM := do
  let enabled ← boolD fields "enabled" false
  let format ← optStrMin fields "format" 1
  let resolution ← parseResolutionPair fields "resolution" none
  let fps ← optIntGe fields "fps" 1
  let bitrate ← optStrMin fields "bitrate" 1
  let includeL ← optStrListMin fields "include" 1
  .ok ⟨enabled, format, resolution, fps, bitrate, includeL,
    extrasOf fields ExportM.declared⟩

def ExportM.toJson (e : ExportM) : JValue :=
  .obj ([("enabled", .bool e.enabled)] ++ jStrOpt "format" e.format ++
    (match e.resolution with
     | some (w, h) => [("resolution", .arr [.int w, .int h])]
     | none => []) ++
    jIntOpt "fps" e.fps ++ jStrOpt "bitrate" e.bitrate ++
    jStrListOpt "include" e.«include» ++ extrasJson e.extra)

/-- `class Modules` (models.py lines 157-163): each module defaults to
its all-default instance when the key is missing. -/
structure Modules where
  scene : Scene
  motion : Motion
  music : Music
  character : CharacterM
  preview : Preview
  «export» : ExportM
  extra : JObj

def Modules.declared : List String :=
  ["scene", "motion", "music", "character", "preview", "export"]

def parseSubmodule {α : Type} (fields : JObj) (name : String)
    (p : JObj → Except String α) (dflt : α) : Except String α :=
  match jlookup fields name with
  | none => .ok dflt
  | some (.obj o) => p o
  | some _ => .error (name ++ ": not an object")

def sceneDefault : Scene :=
  ⟨false, none, none, (2048, 1024), none, none, none, none, none, []⟩
def motionDefault : Motion := ⟨false, none, none, 30, none, none, none, []⟩
def musicDefault : Music := ⟨false, none, none, none, none, none, []⟩
def characterDefault : CharacterM := ⟨false, none, none, none, []⟩
def previewDefault : Preview := ⟨false, none, none, none, []⟩
def exportDefault : ExportM := ⟨false, none, none, none, none, none, []⟩

def parseModules : Option JValue → Except String Modules
  | some (.obj fields) => do
    let scene ← parseSubmodule fields "scene" parseScene sceneDefault
    let motion ← parseSubmodule fields "motion" parseMotion motionDefault
    let music ← parseSubmodule fields "music" parseMusic musicDefault
    let character ← parseSubmodule fields "character" parseCharacter characterDefault
    let preview ← parseSubmodule fields "preview" parsePreview previewDefault
    let exportM ← parseSubmodule fields "export" parseExport exportDefault
    .ok ⟨scene, motion, music, character, preview, exportM,
      extrasOf fields Modules.declared⟩
  | some _ => .error "modules: not an object"
  | none => .error "modules: field required"

def Modules.toJson (m : Modules) : JValue :=
  .obj ([("scene", m.scene.toJson), ("motion", m.motion.toJson),
    ("music", m.music.toJson), ("character", m.character.toJson),
    ("preview", m.preview.toJson), ("export", m.«export».toJson)] ++
    extrasJson m.extra)

/-- `modules.enabled_targets()` (models.py lines 165-171). -/
def Modules.enabledTargets (m : Modules) : List String :=
  (if m.scene.enabled then ["scene"] else []) ++
  (if m.motion.enabled then ["motion"] else []) ++
  (if m.music.enabled then ["music"] else []) ++
  (if m.character.enabled then ["character"] else []) ++
  (if m.preview.enabled then ["preview"] else []) ++
  (if m.«export».enabled then ["export"] else [])

/-- `class Constraints` (models.py lines 174-177). -/
structure Constraints where
  max_runtime_s : Option ℚ
  quality : Option String
  safety : Option JObj
  extra : JObj

def parseConstraints : Option JValue → Except String (Option Constraints)
  | none => .ok none
  | some .null => .ok none
  | some (.obj fields) => do
    let maxRuntime ← optFloatGe fields "max_runtime_s" 1
    let quality ← optStrMin fields "quality" 1
    let safety ← optObjF fields "safety"
    .ok (some ⟨maxRuntime, quality, safety,
      extrasOf fields ["max_runtime_s", "quality", "safety"]⟩)
  | some _ => .error "constraints: not an object"

def Constraints.toJson (c : Constraints) : JValue :=
  .obj (jFloatOpt "max_runtime_s" c.max_runtime_s ++
    jStrOpt "quality" c.quality ++ jObjOpt "safety" c.safety ++
    extrasJson c.extra)

/-- `class Runtime` (models.py lines 180-185). -/
structure RuntimeSec where
  priority : Option Int
  concurrency_key : Option String
  locks : Option JObj
  fallback : Option JObj
  cache_policy : Option JObj
  extra : JObj

def parseRuntimeSec : Option JValue → Except String (Option RuntimeSec)
  | none => .ok none
  | some .null => .ok none
  | some (.obj fields) => do
    let priority ← optIntRange fields "priority" 0 10
    let concurrencyKey ← optStrMin fields "concurrency_key" 1
    let locks ← optObjF fields "locks"
    let fallback ← optObjF fields "fallback"
    let cachePolicy ← optObjF fields "cache_policy"
    .ok (some ⟨priority, concurrencyKey, locks, fallback, cachePolicy,
      extrasOf fields
        ["priority", "concurrency_key", "locks", "fallback", "cache_policy"]⟩)
  | some _ => .error "runtime: not an object"

def RuntimeSec.toJson (r : RuntimeSec) : JValue :=
  .obj (jIntOpt "priority" r.priority ++
    jStrOpt "concurrency_key" r.concurrency_key ++ jObjOpt "locks" r.locks ++
    jObjOpt "fallback" r.fallback ++ jObjOpt "cache_policy" r.cache_policy ++
    extrasJson r.extra)

/-- `class Hooks` (models.py lines 188-189). -/
structure Hooks where
  event_stream : Option Bool
  extra : JObj

def parseHooks : Option JValue → Except String (Option Hooks)
  | none => .ok none
  | some .null => .ok none
  | some (.obj fields) => do
    let eventStream ← optBool fields "event_stream"
    .ok (some ⟨eventStream, extrasOf fields ["event_stream"]⟩)
  | some _ => .error "hooks: not an object"

def Hooks.toJson (h : Hooks) : JValue :=
  .obj (jBoolOpt "event_stream" h.event_stream ++ extrasJson h.extra)

/-- `class UIR` (models.py lines 192-201). -/
structure UIR where
  uir_version : String
  job : JobSec
  input_ : InputSec
  intent : Intent
  routing : Option Routing
  modules : Modules
  constraints : Option Constraints
  runtime : Option RuntimeSec
  hooks : Option Hooks
  extra : JObj

def UIR.declared : List String :=
  ["uir_version", "job", "input", "intent", "routing", "modules",
   "constraints", "runtime", "hooks"]

/-- The `_apply_duration_defaults` root validator (models.py lines
203-218): copy `intent.duration_s` into an enabled motion/music module
whose own `duration_s` is unset. -/
def applyDurationDefaults (u : UIR) : UIR :=
  let duration := u.intent.duration_s
  let motion := u.modules.motion
  let motion :=
    if motion.duration_s = none ∧ motion.enabled
    then { motion with duration_s := some duration } else motion
  let music := u.modules.music
  let music :=
    if music.duration_s = none ∧ music.enabled
    then { music with duration_s := some duration } else music
  { u with modules := { u.modules with motion := motion, music := music } }

/-- `_semantic_errors` (validate.py lines 39-53): each enabled module
must be listed (verbatim) in `intent.targets`. -/
def semanticErrors (u : UIR) : List String :=
  (["scene", "motion", "music", "character", "preview", "export"].filter
    (fun name =>
      (match name with
       | "scene" => u.modules.scene.enabled
       | "motion" => u.modules.motion.enabled
       | "music" => u.modules.music.enabled
       | "character" => u.modules.character.enabled
       | "preview" => u.modules.preview.enabled
       | "export" => u.modules.«export».enabled
       | _ => false) && !u.intent.targets.contains name)).map
    (fun name => "modules." ++ name ++
      ".enabled: enabled module must be listed in intent.targets")

/-- `parse_uir` (validate.py lines 27-36): pydantic structural parse,
the duration-defaults root validator, then the semantic check. -/
def parse_uir (v : JValue) : Except String UIR :=
  match v with
  | .obj fields => do
    let version ←
      match jlookup fields "uir_version" with
      | some (.str "1.0") => Except.ok "1.0"
      | some _ => Except.error "uir_version: unexpected value"
      | none => Except.error "uir_version: field required"
    let job ← parseJobSec (jlookup fields "job")
    let input ← parseInputSec (jlookup fields "input")
    let intent ← parseIntent (jlookup fields "intent")
    let routing ← parseRouting (jlookup fields "routing")
    let modules ← parseModules (jlookup fields "modules")
    let constraints ← parseConstraints (jlookup fields "constraints")
    let runtime ← parseRuntimeSec (jlookup fields "runtime")
    let hooks ← parseHooks (jlookup fields "hooks")
    let u : UIR := applyDurationDefaults
      ⟨version, job, input, intent, routing, modules, constraints, runtime,
        hooks, extrasOf fields UIR.declared⟩
    match semanticErrors u with
    | [] => .ok u
    | e :: _ => .error e
  | _ => .error "UIR payload must be a JSON object"

/-- `model.json(by_alias=True, exclude_none=True)` re-loaded as a JSON
value (the `input_` field serializes under its alias `input`). -/
def UIR.toJson (u : UIR) : JValue :=
  .obj ([("uir_version", .str u.uir_version), ("job", u.job.toJson),
    ("input", u.input_.toJson), ("intent", u.intent.toJson)] ++
    (match u.routing with
     | some r => [("routing", r.toJson)]
     | none => []) ++
    [("modules", u.modules.toJson)] ++
    (match u.constraints with
     | some c => [("constraints", c.toJson)]
     | none => []) ++
    (match u.runtime with
     | some r => [("runtime", r.toJson)]
     | none => []) ++
    (match u.hooks with
     | some h => [("hooks", h.toJson)]
     | none => []) ++
    extrasJson u.extra)

/-! ## Stable hash (uir/hash.py) -/

/-- `_canonical_dict` then `json.dumps(..., sort_keys=True,
ensure_ascii=True, separators=(",", ":"))` (hash.py lines 13-19,
28-31): the canonical payload whose SHA-256 is the stable hash. -/
def canonicalPayload (v : JValue) : Except String String :=
  (parse_uir v).map
    (fun m => dumpsCanonical (stripKeys ["created_at"] m.toJson))

/-- `stable_hash` (hash.py lines 11-21) on a UIR dictionary:
`sha256:<hexdigest of the canonical payload>`; a validation failure
propagates as an error. -/
def stable_hash (v : JValue) : Except String String :=
  (canonicalPayload v).map (fun payload => "sha256:" ++ sha256hex payload)


/-! ## Scheduler data model (scheduler/models.py) -/

/-- `class JobStatus(str, Enum)` (scheduler/models.py lines 9-20). -/
inductive JobStatus where
  | QUEUED | PLANNING | RUNNING_MOTION | RUNNING_SCENE | RUNNING_MUSIC
  | RUNNING_CHARACTER | COMPOSING_PREVIEW | EXPORTING_VIDEO
  | DONE | FAILED | CANCELED
  deriving DecidableEq, Inhabited

/-- `status.value` of the str enum. -/
def JobStatus.value : JobStatus → String
  | .QUEUED => "QUEUED"
  | .PLANNING => "PLANNING"
  | .RUNNING_MOTION => "RUNNING_MOTION"
  | .RUNNING_SCENE => "RUNNING_SCENE"
  | .RUNNING_MUSIC => "RUNNING_MUSIC"
  | .RUNNING_CHARACTER => "RUNNING_CHARACTER"
  | .COMPOSING_PREVIEW => "COMPOSING_PREVIEW"
  | .EXPORTING_VIDEO => "EXPORTING_VIDEO"
  | .DONE => "DONE"
  | .FAILED => "FAILED"
  | .CANCELED => "CANCELED"

/-- The `JobStatus(value)` coercion; `none` models the `ValueError`. -/
def JobStatus.ofValue (s : String) : Option JobStatus :=
  if s = "QUEUED" then some .QUEUED
  else if s = "PLANNING" then some .PLANNING
  else if s = "RUNNING_MOTION" then some .RUNNING_MOTION
  else if s = "RUNNING_SCENE" then some .RUNNING_SCENE
  else if s = "RUNNING_MUSIC" then some .RUNNING_MUSIC
  else if s = "RUNNING_CHARACTER" then some .RUNNING_CHARACTER
  else if s = "COMPOSING_PREVIEW" then some .COMPOSING_PREVIEW
  else if s = "EXPORTING_VIDEO" then some .EXPORTING_VIDEO
  else if s = "DONE" then some .DONE
  else if s = "FAILED" then some .FAILED
  else if s = "CANCELED" then some .CANCELED
  else none

/-- `_TERMINAL_STATUSES` (scheduler/store.py line 16). -/
def terminalStatuses : List JobStatus := [.DONE, .FAILED, .CANCELED]

/-- A Python exception surfaced by the scheduler paths under study. -/
inductive PyErr where
  | attributeError (attr : String)
  | valueError (msg : String)
  deriving DecidableEq

/-- The `Job` dataclass (scheduler/models.py lines 27-48).  Times are
abstract ticks.  Note the dataclass declares *no* `queue_position`,
`queue_size` or `event_stream` fields. -/
structure JobRec where
  job_id : String
  status : JobStatus
  stage : String
  progress : ℚ
  message : String
  created_at : Nat
  started_at : Option Nat
  ended_at : Option Nat
  uir : JValue
  uir_hash : String
  manifest_path : Option String
  manifest_url : Option String
  stages : List String
  logs : List String
  assets : JObj
  deriving Inhabited

/-- A value read off a `Job` attribute. -/
inductive JobAttr where
  | strV (s : String)
  | statusV (v : JobStatus)
  | ratV (q : ℚ)
  | natV (n : Nat)
  | optNatV (t : Option Nat)
  | jsonV (v : JValue)
  | optStrV (s : Option String)
  | strListV (l : List String)
  | objV (o : JObj)
  deriving Inhabited

/-- Python attribute access on a `Job`: the fields the dataclass
declares succeed; any other name raises `AttributeError`
(the dataclass defines no `__getattr__`). -/
def JobRec.getattr (j : JobRec) : String → Except PyErr JobAttr
  | "job_id" => .ok (.strV j.job_id)
  | "status" => .ok (.statusV j.status)
  | "stage" => .ok (.strV j.stage)
  | "progress" => .ok (.ratV j.progress)
  | "message" => .ok (.strV j.message)
  | "created_at" => .ok (.natV j.created_at)
  | "started_at" => .ok (.optNatV j.started_at)
  | "ended_at" => .ok (.optNatV j.ended_at)
  | "uir" => .ok (.jsonV j.uir)
  | "uir_hash" => .ok (.strV j.uir_hash)
  | "manifest_path" => .ok (.optStrV j.manifest_path)
  | "manifest_url" => .ok (.optStrV j.manifest_url)
  | "stages" => .ok (.strListV j.stages)
  | "logs" => .ok (.strListV j.logs)
  | "assets" => .ok (.objV j.assets)
  | name => .error (.attributeError name)

/-! ## Job store (scheduler/store.py) -/

/-- The `JobStore._jobs` dict. -/
abbrev Store := List (String × JobRec)

/-- `JobStore.get_job` (store.py lines 80-82). -/
def getJob (store : Store) (jobId : String) : Option JobRec :=
  match store.find? (fun kv => kv.1 = jobId) with
  | some kv => some kv.2
  | none => none

/-- `self._jobs[job_id] = job`: replace or append. -/
def storeSet (store : Store) (jobId : String) (j : JobRec) : Store :=
  if (store.find? (fun kv => kv.1 = jobId)).isSome then
    store.map (fun kv => if kv.1 = jobId then (jobId, j) else kv)
  else store ++ [(jobId, j)]

/-- `d[k] = v` on a Python dict (existing key keeps its slot). -/
def objSet (o : JObj) (k : String) (v : JValue) : JObj :=
  if (o.find? (fun kv => kv.1 = k)).isSome then
    o.map (fun kv => if kv.1 = k then (k, v) else kv)
  else o ++ [(k, v)]

/-- `d.update(other)`. -/
def objUpdate (o : JObj) (upd : JObj) : JObj :=
  upd.foldl (fun acc kv => objSet acc kv.1 kv.2) o

/-- One keyword argument of `JobStore.update_job`.  `unknownKey` is a
kwarg whose name is not a `Job` attribute: `hasattr` fails and the
key is silently skipped (store.py line 111). -/
inductive UField where
  | status (v : JobStatus)
  | statusStr (s : String)
  | stage (s : String)
  | progress (q : ℚ)
  | message (s : String)
  | started_at (t : Option Nat)
  | ended_at (t : Option Nat)
  | assets (o : JObj)
  | manifest_path (s : String)
  | manifest_url (s : String)
  | logs (l : List String)
  | uirF (v : JValue)
  | unknownKey (name : String)

/-- The kwarg's key, for the `"stage" not in fields` test. -/
def UField.key : UField → String
  | .status _ => "status"
  | .statusStr _ => "status"
  | .stage _ => "stage"
  | .progress _ => "progress"
  | .message _ => "message"
  | .started_at _ => "started_at"
  | .ended_at _ => "ended_at"
  | .assets _ => "assets"
  | .manifest_path _ => "manifest_path"
  | .manifest_url _ => "manifest_url"
  | .logs _ => "logs"
  | .uirF _ => "uir"
  | .unknownKey name => name

/-- The `key == "status"` branch of `update_job` (store.py lines
96-108): set the status, mirror it into `stage` unless `stage` is in
the same update, stamp `started_at` when leaving `QUEUED`, stamp
`ended_at` on the first terminal transition. -/
def applyStatus (hasStage : Bool) (now : Nat) (j : JobRec) (v : JobStatus) :
    JobRec :=
  let j := { j with status := v }
  let j := if hasStage then j else { j with stage := v.value }
  let j := if j.started_at = none ∧ v ≠ .QUEUED
    then { j with started_at := some now } else j
  if v ∈ terminalStatuses ∧ j.ended_at = none
  then { j with ended_at := some now } else j

/-- One iteration of the `for key, value in fields.items()` loop. -/
def applyUField (hasStage : Bool) (now : Nat) (j : JobRec) :
    UField → Except PyErr JobRec
  | .status v => .ok (applyStatus hasStage now j v)
  | .statusStr s =>
    match JobStatus.ofValue s with
    | some v => .ok (applyStatus hasStage now j v)
    | none => .error (.valueError ("Invalid status: " ++ s))
  | .stage s => .ok { j with stage := s }
  | .progress q => .ok { j with progress := max 0 (min 1 q) }
  | .message s => .ok { j with message := s }
  | .started_at t => .ok { j with started_at := t }
  | .ended_at t => .ok { j with ended_at := t }
  | .assets o => .ok { j with assets := o }
  | .manifest_path s => .ok { j with manifest_path := some s }
  | .manifest_url s => .ok { j with manifest_url := some s }
  | .logs l => .ok { j with logs := l }
  | .uirF v => .ok { j with uir := v }
  | .unknownKey _ => .ok j

/-- The field loop; a raised `ValueError` keeps the in-place mutations
already applied. -/
def applyUFields (hasStage : Bool) (now : Nat) (j : JobRec) :
    List UField → JobRec × Except PyErr Unit
  | [] => (j, .ok ())
  | f :: rest =>
    match applyUField hasStage now j f with
    | .ok j2 => applyUFields hasStage now j2 rest
    | .error e => (j, .error e)

/-- `JobStore.update_job` (store.py lines 90-113).  The job object is
mutated in place, so even an update that raises leaves its earlier
field effects in the store. -/
def updateJob (store : Store) (jobId : String) (fields : List UField)
    (now : Nat) : Store × Except PyErr (Option JobRec) :=
  match getJob store jobId with
  | none => (store, .ok none)
  | some j =>
    let hasStage := fields.any (fun f => f.key = "stage")
    match applyUFields hasStage now j fields with
    | (j2, .ok ()) => (storeSet store jobId j2, .ok (some j2))
    | (j2, .error e) => (storeSet store jobId j2, .error e)

/-- `JobStore.append_log` (store.py lines 115-124), ring of 200. -/
def maxLogLines : Nat := 200

def appendLog (store : Store) (jobId : String) (line : String) :
    Store × Option JobRec :=
  match getJob store jobId with
  | none => (store, none)
  | some j =>
    let logs := j.logs ++ [line]
    let overflow : Int := (logs.length : Int) - maxLogLines
    let logs := if 0 < overflow then logs.drop overflow.toNat else logs
    let j2 := { j with logs := logs }
    (storeSet store jobId j2, some j2)

/-- `kind.split(".", 1)` on the character list. -/
def splitFirstDot : List Char → List Char × Option (List Char)
  | [] => ([], none)
  | c :: rest =>
    if c = '.' then ([], some rest)
    else
      let (a, b) := splitFirstDot rest
      (c :: a, b)

/-- `_assign_asset` (store.py lines 149-172). -/
def assignAsset (assets : JObj) (kind : String) (value : JValue)
    (meta : Option JObj) : JObj :=
  match splitFirstDot kind.data with
  | (categoryCs, some fieldCs) =>
    let category := String.mk categoryCs
    let field := String.mk fieldCs
    let bucket :=
      match jlookup assets category with
      | some (.obj o) => o
      | _ => []
    let bucket := objSet bucket field value
    let bucket :=
      match meta with
      | some m => if m.isEmpty then bucket else objUpdate bucket m
      | none => bucket
    objSet assets category (.obj bucket)
  | (_, none) =>
    match meta with
    | some m =>
      if m.isEmpty then objSet assets kind value
      else objSet assets kind (.obj (objUpdate [("value", value)] m))
    | none => objSet assets kind value

/-- `JobStore.set_asset` (store.py lines 126-140). -/
def setAsset (store : Store) (jobId : String) (kind : String)
    (value : JValue) (meta : Option JObj) : Store × Option JobRec :=
  match getJob store jobId with
  | none => (store, none)
  | some j =>
    let j2 := { j with assets := assignAsset j.assets kind value meta }
    (storeSet store jobId j2, some j2)

/-- `JobStore.cancel_job` (store.py lines 142-143). -/
def cancelJob (store : Store) (jobId : String) (message : String)
    (now : Nat) : Store × Except PyErr (Option JobRec) :=
  updateJob store jobId [.status .CANCELED, .message message] now

/-- `make_asset_url(job_id, "manifest.json")`
(storage/manifest.py lines 37-50). -/
def manifestUrl (jobId : String) : String :=
  "/assets/" ++ jobId ++ "/manifest.json"

/-- The `Job(...)` record registered by `JobStore.create_job`
(store.py lines 63-75): freshly `QUEUED`, empty logs and assets,
`stage` mirrored from the status by `__post_init__`, manifest
pointers filled before registration. -/
def initJob (jobId : String) (uir : JValue) (uirHash : String)
    (stagePlan : List String) (now : Nat) : JobRec :=
  { job_id := jobId
    status := .QUEUED
    stage := JobStatus.QUEUED.value
    progress := 0
    message := ""
    created_at := now
    started_at := none
    ended_at := none
    uir := uir
    uir_hash := uirHash
    manifest_path := some (jobId ++ "/manifest.json")
    manifest_url := some (manifestUrl jobId)
    stages := stagePlan
    logs := []
    assets := [] }

/-- One job-store operation, for reachability over operation
sequences.  `create` records a successful `create_job` registration
(its UIR validation, hash and stage plan are covered by the UIR
theorems; a failed validation registers nothing). -/
inductive StoreOp where
  | create (jobId : String) (uir : JValue) (uirHash : String)
      (stagePlan : List String)
  | update (jobId : String) (fields : List UField)
  | appendLogOp (jobId : String) (line : String)
  | setAssetOp (jobId : String) (kind : String) (value : JValue)
      (meta : Option JObj)
  | cancel (jobId : String) (msg : String)

/-- Apply one operation at tick `now` (raised exceptions leave the
store in its partially-mutated state, as in Python). -/
def stepOp (now : Nat) (store : Store) : StoreOp → Store
  | .create jobId uir uirHash stagePlan =>
    storeSet store jobId (initJob jobId uir uirHash stagePlan now)
  | .update jobId fields => (updateJob store jobId fields now).1
  | .appendLogOp jobId line => (appendLog store jobId line).1
  | .setAssetOp jobId kind value meta => (setAsset store jobId kind value meta).1
  | .cancel jobId msg => (cancelJob store jobId msg now).1

/-- Run a timed operation sequence from the empty store. -/
def runOps (ops : List (Nat × StoreOp)) : Store :=
  ops.foldl (fun store op => stepOp op.1 store op.2) []

/-- Does an update assign the `ended_at` attribute directly? -/
def assignsEndedAt : StoreOp → Bool
  | .update _ fields => fields.any (fun f => f.key = "ended_at")
  | _ => false

/-! ## Reporter (scheduler/reporter.py) and worker (scheduler/worker.py) -/

/-- `str(exc)` for the exceptions in this model. -/
def pyErrStr : PyErr → String
  | .attributeError a => "'Job' object has no attribute '" ++ a ++ "'"
  | .valueError m => m

/-- Python truthiness of a `Job` attribute value. -/
def attrTruthy : JobAttr → Bool
  | .strV s => s != ""
  | .statusV _ => true
  | .ratV q => decide (q ≠ 0)
  | .natV n => decide (n ≠ 0)
  | .optNatV t => match t with | none => false | some n => decide (n ≠ 0)
  | .jsonV v => pyTruthy v
  | .optStrV s => match s with | none => false | some s => s != ""
  | .strListV l => !l.isEmpty
  | .objV o => !o.isEmpty

/-- `_event_stream_enabled` (reporter.py lines 85-86):
`bool(job and job.event_stream)`.  A job is always truthy, so this
dereferences `job.event_stream` — an attribute the `Job` dataclass
does not declare, hence an `AttributeError`. -/
def eventStreamEnabled (j : JobRec) : Except PyErr Bool :=
  (j.getattr "event_stream").map attrTruthy

/-- `_status_payload` (reporter.py lines 104-120) dereferences
`job.queue_position` and `job.queue_size`; only reachable if the
event-stream gate succeeded. -/
def statusPayloadCheck (j : JobRec) : Except PyErr Unit := do
  let _ ← j.getattr "queue_position"
  let _ ← j.getattr "queue_size"
  .ok ()

/-- Trace of one worker run: the final store, the events actually
published on the bus, the manifest rewrites (status, errors), and the
`adapter.run` invocations (modality, provider). -/
structure WState where
  store : Store
  published : List (String × String)
  manifests : List (String × List JObj)
  adapterRuns : List (String × String)

/-- `ProgressReporter.status` (reporter.py lines 17-50): update the
store fields, then gate on `_event_stream_enabled` before publishing
(the publish branch is dead code in the current source: the gate
raises first). -/
def reporterStatus (s : WState) (jobId : String) (stage : JobStatus)
    (progress : ℚ) (message : String) (_payload : Option JObj) (now : Nat) :
    WState × Except PyErr Unit :=
  let fields : List UField :=
    [.stage stage.value, .progress progress, .message message, .status stage]
  match updateJob s.store jobId fields now with
  | (store2, .ok none) => ({ s with store := store2 }, .ok ())
  | (store2, .ok (some job)) =>
    (match eventStreamEnabled job with
     | .error e => ({ s with store := store2 }, .error e)
     | .ok false => ({ s with store := store2 }, .ok ())
     | .ok true =>
       match statusPayloadCheck job with
       | .error e => ({ s with store := store2 }, .error e)
       | .ok () =>
         let published := s.published ++ [("status", stage.value)]
         let published :=
           if job.status = .DONE then published ++ [("done", stage.value)]
           else if job.status = .FAILED then published ++ [("failed", stage.value)]
           else published
         ({ s with store := store2, published := published }, .ok ()))
  | (store2, .error e) => ({ s with store := store2 }, .error e)

/-- `ProgressReporter.asset` (reporter.py lines 69-82). -/
def reporterAsset (s : WState) (jobId : String) (kind : String)
    (value : JValue) (meta : Option JObj) : WState × Except PyErr Unit :=
  match setAsset s.store jobId kind value meta with
  | (store2, none) => ({ s with store := store2 }, .ok ())
  | (store2, some job) =>
    match eventStreamEnabled job with
    | .error e => ({ s with store := store2 }, .error e)
    | .ok false => ({ s with store := store2 }, .ok ())
    | .ok true =>
      match statusPayloadCheck job with
      | .error e => ({ s with store := store2 }, .error e)
      | .ok () =>
        ({ s with store := store2, published := s.published ++ [("asset", kind)] },
          .ok ())

/-- `build_error` (adapters/base.py lines 35-46). -/
def buildError (code message : String) (detail : JObj) (retryable : Bool) :
    JObj :=
  [("code", .str code), ("message", .str message), ("detail", .obj detail),
   ("retryable", .bool retryable)]

/-- `_PIPELINE` (worker.py lines 20-28): the fixed stage tuple the
per-job loop iterates — not the job's `stage_plan`. -/
def PIPELINE : List (JobStatus × ℚ × ℚ × ℚ) :=
  [(.PLANNING, 2/5, 0, 1/10),
   (.RUNNING_MOTION, 1, 1/10, 7/20),
   (.RUNNING_SCENE, 1, 7/20, 11/20),
   (.RUNNING_MUSIC, 4/5, 11/20, 7/10),
   (.RUNNING_CHARACTER, 1/2, 7/10, 39/50),
   (.COMPOSING_PREVIEW, 3/5, 39/50, 9/10),
   (.EXPORTING_VIDEO, 3/5, 9/10, 99/100)]

/-- `_STAGE_MODALITY` (worker.py lines 30-37). -/
def stageModality : JobStatus → Option String
  | .RUNNING_MOTION => some "motion"
  | .RUNNING_SCENE => some "scene"
  | .RUNNING_MUSIC => some "music"
  | .RUNNING_CHARACTER => some "character"
  | .COMPOSING_PREVIEW => some "preview"
  | .EXPORTING_VIDEO => some "export"
  | _ => none

/-- `stage.value.lower().replace("_", " ")`. -/
def lowerSpaces (s : String) : String :=
  String.mk (s.data.map (fun c => if c = '_' then ' ' else asciiLower c))

/-- `_STAGE_MESSAGES.get(stage, stage.value.lower().replace("_", " "))`
(worker.py lines 39-47, 100-102). -/
def stageMessage (st : JobStatus) : String :=
  match st with
  | .PLANNING => "planning"
  | .RUNNING_MOTION => "running motion"
  | .RUNNING_SCENE => "running scene"
  | .RUNNING_MUSIC => "running music"
  | .RUNNING_CHARACTER => "running character"
  | .COMPOSING_PREVIEW => "composing preview"
  | .EXPORTING_VIDEO => "exporting video"
  | st => lowerSpaces st.value

/-- `_DEFAULT_PROVIDERS` (worker.py lines 49-56). -/
def defaultProviders (modality : String) : Option String :=
  if modality = "scene" then some "diffusion360_local"
  else if modality = "motion" then some "animationgpt_local"
  else if modality = "music" then some "musicgpt_cli"
  else if modality = "character" then some "builtin_library"
  else if modality = "preview" then some "web_threejs"
  else if modality = "export" then some "ffmpeg_export"
  else none

/-- `_GPU_STAGES` (worker.py lines 58-64): the stages flagged
GPU-bound. -/
def gpuStages : List JobStatus :=
  [.RUNNING_MOTION, .RUNNING_SCENE, .RUNNING_MUSIC, .COMPOSING_PREVIEW,
   .EXPORTING_VIDEO]

/-- A semaphore identifier: the module-level `GPU_SEMAPHORE`
(worker.py line 17) or a `_PROVIDER_SEMAPHORES` entry. -/
inductive SemId where
  | gpu
  | provider (key : String)
  deriving DecidableEq

/-- `_provider_semaphore`'s key:
`provider_id or getattr(adapter, "modality", "") or "default"`
(worker.py lines 262-268). -/
def providerSemKey (providerId adapterModality : String) : String :=
  if providerId ≠ "" then providerId
  else if adapterModality ≠ "" then adapterModality
  else "default"

/-- The semaphores `_run_adapter` (worker.py lines 243-259) acquires
around `adapter.run`: exactly the per-provider semaphore.  No path in
worker.py acquires `GPU_SEMAPHORE`. -/
def runAdapterSemaphores (providerId adapterModality : String) : List SemId :=
  [.provider (providerSemKey providerId adapterModality)]

/-- `str.strip()`. -/
def pyStrip (s : String) : String :=
  String.mk ((s.data.dropWhile isPySpace).reverse.dropWhile isPySpace).reverse

/-- `_resolve_provider_id` (worker.py lines 383-391). -/
def resolveProviderId (uir : JObj) (modality : String) : Option String :=
  let dflt := defaultProviders modality
  match jlookup uir "routing" with
  | some (.obj routing) =>
    match jlookup routing modality with
    | some (.obj entry) =>
      match jlookup entry "provider" with
      | some (.str p) => if pyStrip p ≠ "" then some (pyStrip p) else dflt
      | _ => dflt
    | _ => dflt
  | _ => dflt

/-- The `modules` fallback of `_modality_requested`
(worker.py lines 400-405). -/
def modalityRequestedModules (uir : JObj) (modality : String) : Bool :=
  match jlookup uir "modules" with
  | some (.obj modules) =>
    match jlookup modules modality with
    | some (.obj module) => pyTruthy (jlookupD module "enabled" (.bool false))
    | _ => true
  | _ => true

/-- `_modality_requested` (worker.py lines 394-405): membership of the
modality in `{str(t) for t in intent.targets}` when that is a list
(note: no `enabled` check on this branch), else the module's `enabled`
flag, else `True`. -/
def modalityRequested (uir : JObj) (modality : String) : Bool :=
  match jlookup uir "intent" with
  | some (.obj intent) =>
    match jlookup intent "targets" with
    | some (.arr ts) => ts.any (fun t => pyStr t = modality)
    | _ => modalityRequestedModules uir modality
  | _ => modalityRequestedModules uir modality

/-- `x or y` on JSON values. -/
def pyOr (a b : JValue) : JValue := if pyTruthy a then a else b

/-- `_result_ok` (worker.py lines 340-341). -/
def resultOk (r : JValue) : Bool :=
  match r with
  | .obj fs => pyTruthy (jlookupD fs "ok" .null)
  | _ => false

/-- `_result_artifacts` (worker.py lines 344-349). -/
def resultArtifacts (r : JValue) : List JObj :=
  match r with
  | .obj fs =>
    match jlookup fs "artifacts" with
    | some (.arr xs) =>
      xs.filterMap (fun v => match v with | .obj o => some o | _ => none)
    | _ => []
  | _ => []

/-- `_normalize_error` (worker.py lines 364-380). -/
def normalizeError (error : Option JValue) (fallback : JObj) : JObj :=
  match error with
  | some (.obj eo) =>
    let code := pyOr (jlookupD eo "code" .null) (jlookupD fallback "code" .null)
    let message :=
      pyOr (jlookupD eo "message" .null) (jlookupD fallback "message" .null)
    let detail :=
      match jlookup eo "detail" with
      | some (.obj d) => d
      | _ => []
    let retryable :=
      match jlookup eo "retryable" with
      | some .null => jlookupD fallback "retryable" (.bool false)
      | none => jlookupD fallback "retryable" (.bool false)
      | some v => v
    [("code", .str (pyStr (pyOr code (.str "")))),
     ("message", .str (pyStr (pyOr message (.str "")))),
     ("detail", .obj detail),
     ("retryable", .bool (pyTruthy retryable))]
  | _ => fallback

/-- `_result_error` (worker.py lines 352-361). -/
def resultError (r : JValue) (providerId : String) : JObj :=
  let fallback := buildError "E_MODEL_RUNTIME"
    ("adapter returned ok=false: " ++ providerId)
    [("provider_id", .str providerId)] true
  match r with
  | .obj fs => normalizeError (jlookup fs "error") fallback
  | _ => fallback

/-- `role.split("_", 1)[0]` — `_asset_type_from_role`
(worker.py lines 443-446). -/
def assetTypeFromRole (role : String) : String :=
  if role = "" then ""
  else String.mk (role.data.takeWhile (fun c => c ≠ '_'))

/-- `_asset_kind` (worker.py lines 449-452). -/
def assetKind (assetType role : String) : String :=
  if assetType ≠ "" ∧ role ≠ "" then assetType ++ "." ++ role
  else if role ≠ "" then role
  else if assetType ≠ "" then assetType
  else "artifact"

/-- `_asset_meta` (worker.py lines 455-471). -/
def assetMeta (artifact : JObj) (role assetType : String) : JObj :=
  (if role ≠ "" then [("role", JValue.str role)] else []) ++
  (if assetType ≠ "" then [("type", JValue.str assetType)] else []) ++
  (match jlookup artifact "mime" with
   | some v => if pyTruthy v then [("mime", v)] else []
   | none => []) ++
  (match jlookup artifact "bytes" with
   | some .null => []
   | some v => [("bytes", v)]
   | none => []) ++
  (match jlookup artifact "id" with
   | some v => if pyTruthy v then [("id", v)] else []
   | none => []) ++
  (match jlookup artifact "meta" with
   | some (.obj o) => [("meta", JValue.obj o)]
   | _ => [])

/-- The adapter the registry returns for a provider id, together with
its behaviour for this run.  `validateFails` is the exception message
of `adapter.validate(uir)` when it raises; `outcome` is what
`adapter.run` does. -/
inductive AdapterOutcome where
  | raises (msg : String)
  | result (r : JValue)

structure AdapterSpec where
  provider_id : String
  modality : String
  max_concurrency : Int
  validateFails : Option String
  outcome : AdapterOutcome

/-- Environment of one worker run: the adapter registry and the
schedule of external `cancel_job` calls (a cancellation arriving
before the `k`-th between-stages check). -/
structure WorkerEnv where
  getAdapter : String → Option AdapterSpec
  cancelAt : Nat → Bool

/-- `_is_canceled` (worker.py lines 502-504). -/
def isCanceled (store : Store) (jobId : String) : Bool :=
  match getJob store jobId with
  | none => true
  | some j => j.status = .CANCELED

/-- `_current_progress` (worker.py lines 527-531). -/
def currentProgress (store : Store) (jobId : String) (fallback : ℚ) : ℚ :=
  match getJob store jobId with
  | none => fallback
  | some j => j.progress

/-- `_write_manifest` (worker.py lines 474-491): re-serialize the
manifest from the stored artifacts (recorded as a manifest event) and
refresh the job's manifest pointers. -/
def writeManifestOp (s : WState) (jobId status : String) (errors : List JObj)
    (now : Nat) : WState :=
  match getJob s.store jobId with
  | none => s
  | some _ =>
    let s := { s with manifests := s.manifests ++ [(status, errors)] }
    let store2 := (updateJob s.store jobId
      [.manifest_path (jobId ++ "/manifest.json"),
       .manifest_url (manifestUrl jobId)] now).1
    { s with store := store2 }

/-- `_mark_canceled` (worker.py lines 507-512): one final `CANCELED`
status report — and nothing else: no manifest write. -/
def markCanceled (s : WState) (jobId : String) (now : Nat) :
    WState × Except PyErr Unit :=
  let progress :=
    match getJob s.store jobId with
    | some j => j.progress
    | none => 0
  reporterStatus s jobId .CANCELED progress "canceled" none now

/-- `_fail_job` (worker.py lines 515-524): a `FAILED` status report
carrying the error as payload, then the terminal manifest with that
error. -/
def failJob (s : WState) (jobId : String) (progress : ℚ) (message : String)
    (error : JObj) (now : Nat) : WState × Except PyErr Unit :=
  match reporterStatus s jobId .FAILED progress message (some error) now with
  | (s2, .ok ()) => (writeManifestOp s2 jobId JobStatus.FAILED.value [error] now, .ok ())
  | (s2, .error e) => (s2, .error e)

/-- `_store_artifacts` (worker.py lines 408-423). -/
def storeArtifactsOp (s : WState) (jobId : String) (artifacts : List JObj)
    (now : Nat) : WState :=
  if artifacts.isEmpty then s
  else
    match getJob s.store jobId with
    | none => s
    | some job =>
      let stored :=
        match jlookup job.assets "artifacts" with
        | some (.arr xs) =>
          xs.filterMap (fun v => match v with | .obj o => some (JValue.obj o) | _ => none)
        | _ => []
      let merged := stored ++ artifacts.map JValue.obj
      let assets := objSet job.assets "artifacts" (.arr merged)
      { s with store := (updateJob s.store jobId [.assets assets] now).1 }

/-- `_emit_asset_events` (worker.py lines 426-440). -/
def emitAssetEvents (s : WState) (jobId : String) (artifacts : List JObj) :
    WState × Except PyErr Unit :=
  match artifacts with
  | [] => (s, .ok ())
  | artifact :: rest =>
    let uri := jlookupD artifact "uri" .null
    if !pyTruthy uri then emitAssetEvents s jobId rest
    else
      let role := jlookupD artifact "role" .null
      let roleValue := if pyTruthy role then pyStr role else ""
      let assetType := assetTypeFromRole roleValue
      let kind := assetKind assetType roleValue
      let meta := assetMeta artifact roleValue assetType
      match reporterAsset s jobId kind uri
        (if meta.isEmpty then none else some meta) with
      | (s2, .ok ()) => emitAssetEvents s2 jobId rest
      | (s2, .error e) => (s2, .error e)

/-- One iteration of the `for stage, _duration, progress_range in
_PIPELINE` loop of `_run_job` (worker.py lines 95-223), then the
`DONE` tail (lines 224-225) at the end of the list.  The returned
`Bool` distinguishes an early `return` from completion; an exception
propagates as `.error` to the surrounding `except` clause. -/
def runStages (env : WorkerEnv) (jobId : String) (uir : JObj) (now : Nat) :
    Nat → List (JobStatus × ℚ × ℚ × ℚ) → WState → WState × Except PyErr Bool
  | _, [], s =>
    match reporterStatus s jobId .DONE 1 "done" none now with
    | (s2, .ok ()) =>
      (writeManifestOp s2 jobId JobStatus.DONE.value [] now, .ok false)
    | (s2, .error e) => (s2, .error e)
  | k, (stage, _duration, start, stop) :: rest, s =>
    -- an external `cancel_job` arriving before this boundary check
    let s := if env.cancelAt k
      then { s with store := (cancelJob s.store jobId "canceled" now).1 } else s
    if isCanceled s.store jobId then
      match markCanceled s jobId now with
      | (s2, .ok ()) => (s2, .ok true)
      | (s2, .error e) => (s2, .error e)
    else
      let message := stageMessage stage
      match reporterStatus s jobId stage start message none now with
      | (s2, .error e) => (s2, .error e)
      | (s2, .ok ()) =>
        match stageModality stage with
        | none =>
          match reporterStatus s2 jobId stage stop message none now with
          | (s3, .error e) => (s3, .error e)
          | (s3, .ok ()) =>
            runStages env jobId uir now (k + 1) rest
              (writeManifestOp s3 jobId stage.value [] now)
        | some modality =>
          if !modalityRequested uir modality then
            match reporterStatus s2 jobId stage stop (modality ++ " skipped")
              none now with
            | (s3, .error e) => (s3, .error e)
            | (s3, .ok ()) =>
              runStages env jobId uir now (k + 1) rest
                (writeManifestOp s3 jobId stage.value [] now)
          else
            match resolveProviderId uir modality with
            | none =>
              let error := buildError "E_VALIDATION_ROUTING"
                ("missing provider for " ++ modality)
                [("modality", .str modality)] false
              match failJob s2 jobId (currentProgress s2.store jobId start)
                (modality ++ " routing missing") error now with
              | (s3, .ok ()) => (s3, .ok true)
              | (s3, .error e) => (s3, .error e)
            | some providerId =>
              match env.getAdapter providerId with
              | none =>
                let error := buildError "E_DEPENDENCY_MISSING"
                  ("adapter not registered: " ++ providerId)
                  [("provider_id", .str providerId),
                   ("modality", .str modality)] false
                match failJob s2 jobId (currentProgress s2.store jobId start)
                  (modality ++ " adapter missing") error now with
                | (s3, .ok ()) => (s3, .ok true)
                | (s3, .error e) => (s3, .error e)
              | some adapter =>
                if adapter.modality ≠ "" ∧ adapter.modality ≠ modality then
                  let error := buildError "E_UNSUPPORTED"
                    ("adapter modality mismatch: " ++ adapter.modality)
                    [("provider_id", .str providerId),
                     ("expected", .str modality)] false
                  match failJob s2 jobId (currentProgress s2.store jobId start)
                    (modality ++ " adapter mismatch") error now with
                  | (s3, .ok ()) => (s3, .ok true)
                  | (s3, .error e) => (s3, .error e)
                else
                  match adapter.validateFails with
                  | some msg =>
                    let error := buildError "E_VALIDATION_INPUT"
                      "validation failed" [("error", .str msg)] false
                    match failJob s2 jobId (currentProgress s2.store jobId start)
                      (modality ++ " validation failed") error now with
                    | (s3, .ok ()) => (s3, .ok true)
                    | (s3, .error e) => (s3, .error e)
                  | none =>
                    -- `_run_adapter`: acquire the per-provider
                    -- semaphore (only), run, release
                    let s2 := { s2 with
                      adapterRuns := s2.adapterRuns ++ [(modality, providerId)] }
                    match adapter.outcome with
                    | .raises msg =>
                      let error := buildError "E_MODEL_RUNTIME"
                        "adapter execution failed"
                        [("error", .str msg),
                         ("provider_id", .str providerId)] true
                      match failJob s2 jobId
                        (currentProgress s2.store jobId start)
                        (modality ++ " failed") error now with
                      | (s3, .ok ()) => (s3, .ok true)
                      | (s3, .error e) => (s3, .error e)
                    | .result r =>
                      if !resultOk r then
                        let error := resultError r providerId
                        match failJob s2 jobId
                          (currentProgress s2.store jobId start)
                          (modality ++ " failed") error now with
                        | (s3, .ok ()) => (s3, .ok true)
                        | (s3, .error e) => (s3, .error e)
                      else
                        let artifacts := resultArtifacts r
                        let s3 := storeArtifactsOp s2 jobId artifacts now
                        match emitAssetEvents s3 jobId artifacts with
                        | (s4, .error e) => (s4, .error e)
                        | (s4, .ok ()) =>
                          match reporterStatus s4 jobId stage stop
                            (modality ++ " done") none now with
                          | (s5, .error e) => (s5, .error e)
                          | (s5, .ok ()) =>
                            runStages env jobId uir now (k + 1) rest
                              (writeManifestOp s5 jobId stage.value [] now)

/-- `_run_job` (worker.py lines 80-240): lookup, the canceled-before-
start check (outside the try), the stage loop inside
`try ... except Exception`, whose handler calls `_fail_job` — itself
raising again in the current code, so the exception escapes to
`worker_loop` and kills the worker task. -/
def runJob (env : WorkerEnv) (store : Store) (jobId : String) (now : Nat) :
    WState × Except PyErr Unit :=
  let s0 : WState := ⟨store, [], [], []⟩
  match getJob store jobId with
  | none => (s0, .ok ())
  | some job =>
    if job.status = .CANCELED then
      reporterStatus s0 jobId .CANCELED job.progress "canceled before start"
        none now
    else
      let uir : JObj :=
        match job.uir with
        | .obj fs => fs
        | _ => []
      match runStages env jobId uir now 0 PIPELINE s0 with
      | (s, .ok _) => (s, .ok ())
      | (s, .error exc) =>
        let error := buildError "E_MODEL_RUNTIME" "worker failed"
          [("error", .str (pyErrStr exc))] true
        failJob s jobId (currentProgress s.store jobId 0)
          ("failed: " ++ pyErrStr exc) error now

/-! ## Music adapter validation (adapters/musicgpt_cli.py) -/

/-- `_music_section` (musicgpt_cli.py lines 285-291). -/
def musicSection (uir : JObj) : JObj :=
  match jlookup uir "modules" with
  | some (.obj modules) =>
    match jlookup modules "music" with
    | some (.obj music) => music
    | _ => []
  | _ => []

/-- `float(duration)` on the JSON values this model covers
(non-numeric strings raise and yield `None` in the source). -/
def asFloatPy : JValue → Option ℚ
  | .int n => some (n : ℚ)
  | .float q => some q
  | .bool b => some (if b then 1 else 0)
  | _ => none

/-- `_duration_from_uir` (musicgpt_cli.py lines 301-311):
`music.duration_s`, else `intent.duration_s`, as a float. -/
def durationFromUir (uir music : JObj) : Option ℚ :=
  let duration :=
    match jlookup music "duration_s" with
    | none => none
    | some .null => none
    | some v => some v
  let duration :=
    match duration with
    | some v => some v
    | none =>
      match jlookup uir "intent" with
      | some (.obj intent) =>
        match jlookup intent "duration_s" with
        | some .null => none
        | some v => some v
        | none => none
      | _ => none
  match duration with
  | none => none
  | some v => asFloatPy v

/-- The duration clause of `MusicGPTCliAdapter.validate`
(musicgpt_cli.py lines 32-36): it is the *adapter*, not the UIR
validator, that rejects a duration outside `[3, 60]`. -/
def musicgptValidateDuration (uir : JObj) : Except String ℚ :=
  match durationFromUir uir (musicSection uir) with
  | none => .error "missing duration_s"
  | some d =>
    if d < 3 ∨ d > 60 then .error "duration_s must be between 3 and 60"
    else .ok d

/-! ## Job snapshot endpoint (api/jobs.py) -/

/-- `datetime.isoformat()` on an abstract tick. -/
def isoformat (t : Nat) : String := "tick:" ++ toString t

def optTimeJson : Option Nat → JValue
  | none => .null
  | some t => .str (isoformat t)

def optStrJson : Option String → JValue
  | none => .null
  | some s => .str s

/-- A `Job` attribute as a JSON value (for the projection's tail,
dead code behind the `AttributeError`). -/
def attrJson : JobAttr → JValue
  | .strV s => .str s
  | .statusV v => .str v.value
  | .ratV q => .float q
  | .natV n => .str (isoformat n)
  | .optNatV t => optTimeJson t
  | .jsonV v => v
  | .optStrV s => optStrJson s
  | .strListV l => .arr (l.map JValue.str)
  | .objV o => .obj o

/-- `_artifacts_partial` (api/jobs.py lines 99-107). -/
def artifactsFromAssets (assets : JObj) : List JObj :=
  match jlookup assets "artifacts" with
  | some (.arr xs) =>
    xs.filterMap (fun v => match v with | .obj o => some o | _ => none)
  | _ => []

/-- `_job_to_dict` (api/jobs.py lines 17-40): the snapshot
projection's dict literal.  Note `"logs_tail": list(job.logs)` copies
the *whole* log list, and the literal then evaluates
`job.queue_position` (line 37) — an attribute the `Job` dataclass
does not declare — so the projection raises `AttributeError` for
every job. -/
def jobToDict (j : JobRec) : Except PyErr JObj := do
  let artifacts := (artifactsFromAssets j.assets).map JValue.obj
  let entries : JObj :=
    [("job_id", .str j.job_id),
     ("status", .str j.status.value),
     ("stage", .str j.stage),
     ("progress", .float j.progress),
     ("message", .str j.message),
     ("created_at", .str (isoformat j.created_at)),
     ("started_at", optTimeJson j.started_at),
     ("ended_at", optTimeJson j.ended_at),
     ("uir", j.uir),
     ("uir_hash", .str j.uir_hash),
     ("manifest_path", optStrJson j.manifest_path),
     ("manifest_url", optStrJson j.manifest_url),
     ("logs", .arr (j.logs.map JValue.str)),
     ("logs_tail", .arr (j.logs.map JValue.str)),
     ("assets", .obj j.assets),
     ("partial_assets", .arr artifacts),
     ("artifacts_partial", .arr artifacts)]
  let qp ← j.getattr "queue_position"
  let qs ← j.getattr "queue_size"
  let es ← j.getattr "event_stream"
  .ok (entries ++ [("queue_position", attrJson qp),
    ("queue_size", attrJson qs), ("event_stream", attrJson es)])

/-- A response of `GET /jobs/{job_id}`. -/
inductive JobsResponse where
  | notFound
  | body (payload : JObj)
  | internalError (e : PyErr)

/-- `get_job` (api/jobs.py lines 59-71): 404 for an unknown id, else
the projection (the manifest enrichment is reached only after
`_job_to_dict` returns; an unhandled exception is an HTTP 500). -/
def getJobRoute (store : Store) (jobId : String) : JobsResponse :=
  match getJob store jobId with
  | none => .notFound
  | some job =>
    match jobToDict job with
    | .ok payload => .body payload
    | .error e => .internalError e

/-! ## Fixtures used by the theorems below -/

/-- A UIR payload whose plan enables scene and motion (in the plan's
order `RUNNING_SCENE` before `RUNNING_MOTION`). -/
def fixUir : JValue := .obj [
  ("uir_version", .str "1.0"),
  ("intent", .obj [("targets", .arr [.str "scene", .str "motion"]),
    ("duration_s", .float 12)]),
  ("modules", .obj [
    ("scene", .obj [("enabled", .bool true)]),
    ("motion", .obj [("enabled", .bool true)]),
    ("music", .obj [("enabled", .bool false)]),
    ("character", .obj [("enabled", .bool false)]),
    ("preview", .obj [("enabled", .bool false)]),
    ("export", .obj [("enabled", .bool false)])])]

/-- A store holding one queued job for that payload. -/
def fixJob : JobRec := initJob "job_1" fixUir "sha256:x" (plan_stages fixUir) 0

def fixStore : Store := [("job_1", fixJob)]

/-- A worker environment with an empty adapter registry and no
external cancellation. -/
def fixEnv : WorkerEnv := ⟨fun _ => none, fun _ => false⟩

/-- The same environment with an external `cancel_job` arriving before
the first between-stages check. -/
def fixEnvCancel : WorkerEnv := ⟨fun _ => none, fun k => k = 0⟩

/-- The operation trace refuting C5: create, cancel, then an update
back to a non-terminal status. -/
def c5ops : List (Nat × StoreOp) :=
  [(1, .create "j" (.obj []) "sha256:x" ["PLANNING"]),
   (2, .cancel "j" "stop"),
   (3, .update "j" [.status .PLANNING])]

/-- A valid UIR whose `input.ui_choices` dict carries a *nested*
`created_at` key with value `v` — the only place the parameter
occurs. -/
def c7u (v : String) : JValue := .obj [
  ("uir_version", .str "1.0"),
  ("job", .obj [("id", .str "j1"),
    ("created_at", .str "2025-12-20T00:00:00Z")]),
  ("input", .obj [("raw_prompt", .str "p"),
    ("ui_choices", .obj [("created_at", .str v)])]),
  ("intent", .obj [("targets", .arr [.str "scene"])]),
  ("modules", .obj [])]

/-- The nested `input.ui_choices.created_at` value of a UIR dict. -/
def uiChoicesCreatedAt (u : JValue) : Option JValue :=
  match u with
  | .obj fields =>
    match jlookup fields "input" with
    | some (.obj input) =>
      match jlookup input "ui_choices" with
      | some (.obj choices) => jlookup choices "created_at"
      | _ => none
    | _ => none
  | _ => none

/-- Hypothesis for C9: every raw target is a string already in the
planner's normal form (stripped, lower-case) — true of the UIR data
model, where `intent.targets` is a subset of the six module names. -/
def targetsNormalizedStr (uir : JValue) : Bool :=
  (rawTargets uir).all (fun v =>
    match v with
    | .str s => pyNormalize s == s
    | _ => false)

/-- Hypothesis for C9: each module's `enabled` value, when present,
is a JSON boolean (as the validated UIR guarantees). -/
def enabledWellFormed (uir : JValue) : Bool :=
  ["scene", "motion", "music", "character", "preview", "export"].all
    (fun name =>
      match jlookup (modulesSection uir) name with
      | some (.obj entry) =>
        match jlookup entry "enabled" with
        | none => true
        | some (.bool _) => true
        | some _ => false
      | _ => true)

/-- The music module dict with duration value `d` (its only
occurrence). -/
def c8m (d : JValue) : JObj :=
  [("enabled", .bool true), ("prompt", .str "m"), ("duration_s", d)]

/-- A UIR enabling (and targeting) music with duration `d`. -/
def c8fields (d : JValue) : JObj := [
  ("uir_version", .str "1.0"),
  ("job", .obj [("id", .str "j1"),
    ("created_at", .str "2025-12-20T00:00:00Z")]),
  ("input", .obj [("raw_prompt", .str "p")]),
  ("intent", .obj [("targets", .arr [.str "music"]),
    ("duration_s", .float 12)]),
  ("modules", .obj [("music", .obj (c8m d))])]

def c8u (d : JValue) : JValue := .obj (c8fields d)

/-- The continuation of `parseModules` on the `c8u` family once the
music module has been parsed (the other five modules are absent and
default). -/
def c8modRest (music : Music) : Except String Modules :=
  .ok ⟨sceneDefault, motionDefault, music, characterDefault, previewDefault,
    exportDefault, []⟩

/-- The continuation of `parse_uir` on the `c8u` family once the
modules section has been parsed: the remaining (concrete) sections,
the duration-defaults validator and the semantic check. -/
def c8topRest (modules : Modules) : Except String UIR :=
  let u : UIR := applyDurationDefaults
    ⟨"1.0",
     ⟨"j1", "2025-12-20T00:00:00Z", none, none, none, none, []⟩,
     ⟨"p", none, none, none, []⟩,
     ⟨["music"], 12, none, none, none, none, []⟩,
     none, modules, none, none, none, []⟩
  match semanticErrors u with
  | [] => .ok u
  | e :: _ => .error e

/-- The same UIR with no `modules.music.duration_s`, so the effective
duration defaults from `intent.duration_s = 100`. -/
def c8uNoDur : JValue := .obj [
  ("uir_version", .str "1.0"),
  ("job", .obj [("id", .str "j1"),
    ("created_at", .str "2025-12-20T00:00:00Z")]),
  ("input", .obj [("raw_prompt", .str "p")]),
  ("intent", .obj [("targets", .arr [.str "music"]),
    ("duration_s", .int 100)]),
  ("modules", .obj [("music", .obj
    [("enabled", .bool true), ("prompt", .str "m")])])]

/-- Replace the value at key `K` by `g` of it (other keys untouched),
as Python's `d[K] = g(d[K])` for a present key. -/
def mapAtKey (fields : JObj) (K : String) (g : JValue → JValue) : JObj :=
  fields.map (fun kv => if kv.1 = K then (kv.1, g kv.2) else kv)

/-- Replace the `created_at` value of a job object with `c`. -/
def setCreatedAtInJob (jobV : JValue) (c : String) : JValue :=
  match jobV with
  | .obj jfs => .obj (mapAtKey jfs "created_at" (fun _ => .str c))
  | v => v

/-- Replace the top-level `job.created_at` value of a UIR dict with
`c`: the modified dict equals the original except for that value. -/
def setJobCreatedAt (u : JValue) (c : String) : JValue :=
  match u with
  | .obj fs => .obj (mapAtKey fs "job" (fun jv => setCreatedAtInJob jv c))
  | v => v

/-! ## Theorems -/

/-- C2.  GET /jobs/{job_id} returns 404 for an unknown id, but for
*every* job in the store the projection `_job_to_dict` raises
`AttributeError` on `job.queue_position` (api/jobs.py line 37; the
`Job` dataclass declares no such field), so the route returns an
internal error — never the stable JSON projection the claim
describes.  The projection's `logs_tail` would in any case copy the
whole log list (api/jobs.py line 33), not the last 8 lines. -/
theorem C2_get_job_route_raises :
    (∀ j : JobRec, jobToDict j = .error (.attributeError "queue_position")) ∧
    getJobRoute fixStore "missing" = .notFound ∧
    getJobRoute fixStore "job_1" =
      .internalError (.attributeError "queue_position") :=
  ⟨fun _ => rfl, rfl, rfl⟩

/-- C4.  `_run_adapter` acquires only the per-provider semaphore: the
process-wide `GPU_SEMAPHORE` (worker.py line 17) is never acquired on
any path, for any provider or adapter modality, although
`_GPU_STAGES` (worker.py lines 58-64) flags the five GPU-bound
stages.  Two GPU-bound runs of distinct providers are therefore not
mutually excluded. -/
theorem C4_gpu_semaphore_never_acquired :
    (∀ providerId adapterModality : String,
      SemId.gpu ∉ runAdapterSemaphores providerId adapterModality) ∧
    gpuStages = [.RUNNING_MOTION, .RUNNING_SCENE, .RUNNING_MUSIC,
      .COMPOSING_PREVIEW, .EXPORTING_VIDEO] ∧
    runAdapterSemaphores "diffusion360_local" "scene" =
      [.provider "diffusion360_local"] := by
  refine ⟨fun providerId adapterModality h => ?_, rfl, rfl⟩
  simp only [runAdapterSemaphores, List.mem_singleton] at h
  exact SemId.noConfusion h

/-- C10.  On a job id absent from the store, each of `update_job`,
`append_log`, `set_asset` and `cancel_job` returns `None`, raises
nothing, and leaves the store unchanged (`get_job` returning `None`
is the hypothesis itself). -/
theorem C10_store_ops_unknown_id (store : Store) (jobId : String)
    (h : getJob store jobId = none) (fields : List UField) (line : String)
    (kind : String) (value : JValue) (meta : Option JObj) (msg : String)
    (now : Nat) :
    updateJob store jobId fields now = (store, .ok none) ∧
    appendLog store jobId line = (store, none) ∧
    setAsset store jobId kind value meta = (store, none) ∧
    cancelJob store jobId msg now = (store, .ok none) := by
  refine ⟨?_, ?_, ?_, ?_⟩ <;>
    simp only [updateJob, appendLog, setAsset, cancelJob, h]

/-- Witness for C10 at a concrete store and id. -/
theorem C10_store_ops_unknown_id_witness :
    getJob fixStore "nope" = none ∧
    updateJob fixStore "nope" [.status .DONE] 7 = (fixStore, .ok none) ∧
    appendLog fixStore "nope" "line" = (fixStore, none) ∧
    setAsset fixStore "nope" "a.b" (.str "v") none = (fixStore, none) ∧
    cancelJob fixStore "nope" "bye" 7 = (fixStore, .ok none) := by
  have h : getJob fixStore "nope" = none := rfl
  have := C10_store_ops_unknown_id fixStore "nope" h [.status .DONE] "line"
    "a.b" (.str "v") none "bye" 7
  exact ⟨h, this.1, this.2.1, this.2.2.1, this.2.2.2⟩

/-- C1.  The per-job loop does not execute the job's `stage_plan`: it
iterates the fixed `_PIPELINE` tuple (worker.py line 95), whose order
(`RUNNING_MOTION` before `RUNNING_SCENE`) differs from the plan's
(`RUNNING_SCENE` before `RUNNING_MOTION`), and stages outside the
plan still get status reports (a start report and a "skipped" report)
and manifest rewrites.  On the failing input below the divergence is
total: the first status report dereferences the undeclared
`Job.event_stream` (reporter.py line 86), so the run aborts with
`AttributeError` during `PLANNING` — no planned stage ever executes,
no event is published, and the job is left `FAILED`. -/
theorem C1_worker_ignores_stage_plan :
    plan_stages fixUir = [PLANNING, RUNNING_SCENE, RUNNING_MOTION] ∧
    PIPELINE.map (fun st => st.1) =
      [.PLANNING, .RUNNING_MOTION, .RUNNING_SCENE, .RUNNING_MUSIC,
       .RUNNING_CHARACTER, .COMPOSING_PREVIEW, .EXPORTING_VIDEO] ∧
    (runJob fixEnv fixStore "job_1" 1).1.adapterRuns = [] ∧
    (runJob fixEnv fixStore "job_1" 1).1.published = [] ∧
    (runJob fixEnv fixStore "job_1" 1).2 =
      .error (.attributeError "event_stream") ∧
    (getJob (runJob fixEnv fixStore "job_1" 1).1.store "job_1").map
      (fun j => j.status) = some .FAILED :=
  ⟨rfl, rfl, rfl, rfl, rfl, rfl⟩

/-- C3.  When cancellation is observed at the between-stages check,
`_mark_canceled` (worker.py lines 507-512) only issues a status
report and never writes the terminal manifest; and in the current
code that report itself raises `AttributeError` on the undeclared
`Job.event_stream`, after which the `except` handler's `_fail_job`
overwrites the status to `FAILED` and re-raises.  So no `CANCELED`
event is published, no manifest is written, and the job does not even
stay `CANCELED`. -/
theorem C3_cancel_between_stages :
    (runJob fixEnvCancel fixStore "job_1" 1).1.manifests = [] ∧
    (runJob fixEnvCancel fixStore "job_1" 1).1.published = [] ∧
    (runJob fixEnvCancel fixStore "job_1" 1).2 =
      .error (.attributeError "event_stream") ∧
    (getJob (runJob fixEnvCancel fixStore "job_1" 1).1.store "job_1").map
      (fun j => (j.status, j.ended_at)) = some (.FAILED, some 1) :=
  ⟨rfl, rfl, rfl, rfl⟩

/-- C5, counterexample.  After create → cancel → update(status =
PLANNING), the job has `ended_at` set (at tick 2, by the cancel) but a
non-terminal status: `update_job` never rejects a transition out of a
terminal status, so `ended_at ≠ null ⟺ status ∈ terminal` fails, and
terminal states are not sinks. -/
theorem C5_counterexample :
    (getJob (runOps c5ops) "j").map
      (fun j => (j.status, j.ended_at, decide (j.status ∈ terminalStatuses))) =
      some (.PLANNING, some 2, false) :=
  rfl

/-- The per-job half of the C5 invariant. -/
def jobTerminalEnded (j : JobRec) : Prop :=
  j.status ∈ terminalStatuses → j.ended_at ≠ none

theorem mem_storeSet {store : Store} {jobId : String} {jnew : JobRec}
    {kv : String × JobRec} (h : kv ∈ storeSet store jobId jnew) :
    kv.2 = jnew ∨ kv ∈ store := by
  unfold storeSet at h
  split at h
  · rcases List.mem_map.mp h with ⟨kv0, hkv0, heq⟩
    by_cases hk : kv0.1 = jobId
    · left
      rw [if_pos hk] at heq
      rw [← heq]
    · right
      rw [if_neg hk] at heq
      rwa [← heq]
  · rcases List.mem_append.mp h with h1 | h1
    · right; exact h1
    · left
      rcases List.mem_singleton.mp h1 with h2
      rw [h2]

theorem getJob_mem {store : Store} {jobId : String} {j : JobRec}
    (h : getJob store jobId = some j) : ∃ kv ∈ store, kv.2 = j := by
  unfold getJob at h
  cases hf : store.find? (fun kv => kv.1 = jobId) with
  | none => rw [hf] at h; exact absurd h (by simp)
  | some kv =>
    rw [hf] at h
    refine ⟨kv, List.mem_of_find?_eq_some hf, ?_⟩
    simpa using h

theorem applyStatus_te (hasStage : Bool) (now : Nat) (j : JobRec)
    (v : JobStatus) : jobTerminalEnded (applyStatus hasStage now j v) := by
  unfold jobTerminalEnded applyStatus
  intro hterm
  dsimp only at hterm ⊢
  split_ifs at hterm ⊢ <;> simp_all

theorem applyUField_te (hasStage : Bool) (now : Nat) (j : JobRec)
    (f : UField) (hf : f.key ≠ "ended_at") (hj : jobTerminalEnded j)
    (j2 : JobRec) (h : applyUField hasStage now j f = .ok j2) :
    jobTerminalEnded j2 := by
  cases f with
  | status v =>
    simp only [applyUField] at h
    cases h
    exact applyStatus_te hasStage now j v
  | statusStr sv =>
    simp only [applyUField] at h
    cases hv : JobStatus.ofValue sv with
    | none => rw [hv] at h; exact absurd h (by simp)
    | some v =>
      rw [hv] at h
      cases h
      exact applyStatus_te hasStage now j v
  | ended_at t => exact absurd rfl hf
  | stage s => simp only [applyUField] at h; cases h; exact hj
  | progress q => simp only [applyUField] at h; cases h; exact hj
  | message s => simp only [applyUField] at h; cases h; exact hj
  | started_at t => simp only [applyUField] at h; cases h; exact hj
  | assets o => simp only [applyUField] at h; cases h; exact hj
  | manifest_path s => simp only [applyUField] at h; cases h; exact hj
  | manifest_url s => simp only [applyUField] at h; cases h; exact hj
  | logs l => simp only [applyUField] at h; cases h; exact hj
  | uirF v => simp only [applyUField] at h; cases h; exact hj
  | unknownKey n => simp only [applyUField] at h; cases h; exact hj

theorem applyUFields_te (hasStage : Bool) (now : Nat) (fields : List UField)
    (hf : fields.any (fun f => f.key = "ended_at") = false) :
    ∀ j : JobRec, jobTerminalEnded j →
      jobTerminalEnded (applyUFields hasStage now j fields).1 := by
  induction fields with
  | nil => intro j hj; exact hj
  | cons f rest ih =>
    intro j hj
    simp only [List.any_cons, Bool.or_eq_false_iff] at hf
    obtain ⟨hf1, hf2⟩ := hf
    simp only [applyUFields]
    cases hstep : applyUField hasStage now j f with
    | ok j2 =>
      exact ih hf2 j2
        (applyUField_te hasStage now j f (by simpa using hf1) hj j2 hstep)
    | error e => exact hj

theorem updateJob_te {store : Store} {jobId : String} {fields : List UField}
    {now : Nat}
    (hf : fields.any (fun f => f.key = "ended_at") = false)
    (hstore : ∀ kv ∈ store, jobTerminalEnded kv.2) :
    ∀ kv ∈ (updateJob store jobId fields now).1, jobTerminalEnded kv.2 := by
  intro kv hkv
  unfold updateJob at hkv
  cases hg : getJob store jobId with
  | none => rw [hg] at hkv; exact hstore kv hkv
  | some j =>
    rw [hg] at hkv
    dsimp only at hkv
    have hj : jobTerminalEnded j := by
      rcases getJob_mem hg with ⟨kv0, hkv0, hkv0j⟩
      rw [← hkv0j]; exact hstore kv0 hkv0
    have h2 := applyUFields_te (fields.any (fun f => f.key = "stage")) now
      fields hf j hj
    cases happ : applyUFields (fields.any (fun f => f.key = "stage")) now j
      fields with
    | mk j2 r =>
      rw [happ] at hkv h2
      have hj2 : jobTerminalEnded j2 := h2
      cases r with
      | ok u =>
        cases u
        rcases mem_storeSet hkv with h3 | h3
        · rw [h3]; exact hj2
        · exact hstore kv h3
      | error e =>
        rcases mem_storeSet hkv with h3 | h3
        · rw [h3]; exact hj2
        · exact hstore kv h3

theorem stepOp_te {now : Nat} {store : Store} {op : StoreOp}
    (hop : assignsEndedAt op = false)
    (hstore : ∀ kv ∈ store, jobTerminalEnded kv.2) :
    ∀ kv ∈ stepOp now store op, jobTerminalEnded kv.2 := by
  intro kv hkv
  cases op with
  | create jobId uir uirHash stagePlan =>
    simp only [stepOp] at hkv
    rcases mem_storeSet hkv with h | h
    · rw [h]
      intro hterm
      simp [initJob, terminalStatuses] at hterm
    · exact hstore kv h
  | update jobId fields =>
    simp only [stepOp] at hkv
    exact updateJob_te (by simpa [assignsEndedAt] using hop) hstore kv hkv
  | appendLogOp jobId line =>
    simp only [stepOp] at hkv
    unfold appendLog at hkv
    cases hg : getJob store jobId with
    | none => rw [hg] at hkv; exact hstore kv hkv
    | some j =>
      rw [hg] at hkv
      have hj : jobTerminalEnded j := by
        rcases getJob_mem hg with ⟨kv0, hkv0, hkv0j⟩
        rw [← hkv0j]; exact hstore kv0 hkv0
      rcases mem_storeSet hkv with h | h
      · rw [h]; exact hj
      · exact hstore kv h
  | setAssetOp jobId kind value meta =>
    simp only [stepOp] at hkv
    unfold setAsset at hkv
    cases hg : getJob store jobId with
    | none => rw [hg] at hkv; exact hstore kv hkv
    | some j =>
      rw [hg] at hkv
      have hj : jobTerminalEnded j := by
        rcases getJob_mem hg with ⟨kv0, hkv0, hkv0j⟩
        rw [← hkv0j]; exact hstore kv0 hkv0
      rcases mem_storeSet hkv with h | h
      · rw [h]; exact hj
      · exact hstore kv h
  | cancel jobId msg =>
    simp only [stepOp, cancelJob] at hkv
    exact updateJob_te (by simp [UField.key]) hstore kv hkv

/-- C5, amended.  Over any operation sequence that never assigns
`ended_at` directly, every reachable job with a terminal status has
`ended_at` set; the converse — and the claim's biconditional — fails
because `update_job` accepts a later non-terminal status (see the
counterexample), so terminal states are not sinks. -/
theorem C5_terminal_implies_ended (ops : List (Nat × StoreOp))
    (h : ops.all (fun p => !assignsEndedAt p.2) = true) :
    ∀ kv ∈ runOps ops, kv.2.status ∈ terminalStatuses →
      kv.2.ended_at ≠ none := by
  suffices hgen : ∀ (ops : List (Nat × StoreOp)) (store : Store),
      ops.all (fun p => !assignsEndedAt p.2) = true →
      (∀ kv ∈ store, jobTerminalEnded kv.2) →
      ∀ kv ∈ ops.foldl (fun st p => stepOp p.1 st p.2) store,
        jobTerminalEnded kv.2 by
    exact hgen ops [] h (by intro kv hkv; exact absurd hkv (by simp))
  intro ops
  induction ops with
  | nil => intro store _ hstore; exact hstore
  | cons p rest ih =>
    intro store hall hstore
    simp only [List.all_cons, Bool.and_eq_true, Bool.not_eq_true'] at hall
    exact ih (stepOp p.1 store p.2) (by simpa using hall.2)
      (stepOp_te hall.1 hstore)

/-- Witness for C5's amended theorem on a concrete trace. -/
theorem C5_terminal_implies_ended_witness :
    ([(1, StoreOp.create "j" (.obj []) "h" []), (2, StoreOp.cancel "j" "x")].all
      (fun p => !assignsEndedAt p.2) = true) ∧
    (∀ kv ∈ runOps [(1, StoreOp.create "j" (.obj []) "h" []),
        (2, StoreOp.cancel "j" "x")],
      kv.2.status ∈ terminalStatuses → kv.2.ended_at ≠ none) :=
  ⟨by decide, C5_terminal_implies_ended _ (by decide)⟩

mutual
/-- `_strip_keys` removes every binding of every dropped key, at every
depth of the tree. -/
theorem hasKeyDeep_stripKeys (dropKeys : List String) (k : String)
    (hk : k ∈ dropKeys) :
    (v : JValue) → hasKeyDeep k (stripKeys dropKeys v) = false
  | .null => rfl
  | .bool _ => rfl
  | .int _ => rfl
  | .float _ => rfl
  | .str _ => rfl
  | .arr xs => by
    simp only [stripKeys, hasKeyDeep]
    exact hasKeyDeepArr_stripKeysArr dropKeys k hk xs
  | .obj fs => by
    simp only [stripKeys, hasKeyDeep]
    exact hasKeyDeepObj_stripKeysObj dropKeys k hk fs

theorem hasKeyDeepArr_stripKeysArr (dropKeys : List String) (k : String)
    (hk : k ∈ dropKeys) :
    (xs : List JValue) → hasKeyDeepArr k (stripKeysArr dropKeys xs) = false
  | [] => rfl
  | v :: vs => by
    simp only [stripKeysArr, hasKeyDeepArr]
    rw [hasKeyDeep_stripKeys dropKeys k hk v,
      hasKeyDeepArr_stripKeysArr dropKeys k hk vs]
    rfl

theorem hasKeyDeepObj_stripKeysObj (dropKeys : List String) (k : String)
    (hk : k ∈ dropKeys) :
    (fs : JObj) → hasKeyDeepObj k (stripKeysObj dropKeys fs) = false
  | [] => rfl
  | (key, v) :: kvs => by
    simp only [stripKeysObj]
    by_cases h : key ∈ dropKeys
    · rw [if_pos h]
      exact hasKeyDeepObj_stripKeysObj dropKeys k hk kvs
    · rw [if_neg h]
      simp only [hasKeyDeepObj]
      have hkey : ¬ key = k := fun he => h (he ▸ hk)
      rw [hasKeyDeep_stripKeys dropKeys k hk v,
        hasKeyDeepObj_stripKeysObj dropKeys k hk kvs]
      simp [hkey]
end

/-- C7, amended.  The canonical serialization of `stable_hash` strips
`created_at` from *every* object of the UIR, not only the top-level
`job`: no `created_at` key survives at any depth, so two valid UIRs
differing only in a nested `created_at` value hash identically (see
the counterexample). -/
theorem C7_strip_removes_created_at_everywhere (v : JValue) :
    hasKeyDeep "created_at" (stripKeys ["created_at"] v) = false :=
  hasKeyDeep_stripKeys ["created_at"] "created_at" (by simp) v

/-- C7, counterexample.  Two valid UIRs that differ only in the value
of the nested `input.ui_choices.created_at` field (shown by the two
observations) have the *same* stable hash, contradicting the claim
that such a nested `created_at` is retained and yields different
hashes. -/
theorem C7_counterexample :
    (parse_uir (c7u "2025-01-01T00:00:00Z")).isOk = true ∧
    (parse_uir (c7u "2030-12-31T00:00:00Z")).isOk = true ∧
    uiChoicesCreatedAt (c7u "2025-01-01T00:00:00Z") =
      some (.str "2025-01-01T00:00:00Z") ∧
    uiChoicesCreatedAt (c7u "2030-12-31T00:00:00Z") =
      some (.str "2030-12-31T00:00:00Z") ∧
    stable_hash (c7u "2025-01-01T00:00:00Z") =
      stable_hash (c7u "2030-12-31T00:00:00Z") := by
  refine ⟨rfl, rfl, rfl, rfl, ?_⟩
  have hcanon : canonicalPayload (c7u "2025-01-01T00:00:00Z") =
      canonicalPayload (c7u "2030-12-31T00:00:00Z") := rfl
  unfold stable_hash
  rw [hcanon]

/-- On normalized string targets, the planner's normalized-set
membership coincides with literal membership in `intent.targets`. -/
theorem targets_contains_eq (l : List JValue) (name : String)
    (hn : name ≠ "")
    (ht : l.all (fun v =>
      match v with
      | .str s => pyNormalize s == s
      | _ => false) = true) :
    ((l.filter pyTruthy).map (fun v => pyNormalize (pyStr v))).contains name =
      l.any (fun v => jvalueBeq v (.str name)) := by
  induction l with
  | nil => rfl
  | cons v rest ih =>
    simp only [List.all_cons, Bool.and_eq_true] at ht
    obtain ⟨hv, hrest⟩ := ht
    cases v with
    | str sv =>
      have hs : pyNormalize sv = sv := by simpa using hv
      by_cases hse : sv = ""
      · subst hse
        simp only [List.filter_cons, List.any_cons]
        have h1 : pyTruthy (.str "") = false := rfl
        have h2 : jvalueBeq (.str "") (.str name) = false := by
          simp [jvalueBeq]
          exact fun he => hn he.symm
        rw [h1, h2]
        simpa using ih hrest
      · have h1 : pyTruthy (.str sv) = true := by
          simp [pyTruthy, hse]
        have h2 : pyNormalize (pyStr (.str sv)) = sv := by
          simp [pyStr, hs]
        simp only [List.filter_cons, h1, if_true, List.map_cons, h2,
          List.contains_cons, List.any_cons, ih hrest]
        have h3 : (name == sv) = jvalueBeq (.str sv) (.str name) := by
          show (name == sv) = (sv == name)
          by_cases hns : name = sv
          · subst hns; rfl
          · have hsn : ¬ sv = name := fun h => hns h.symm
            simp [hns, hsn]
        rw [h3]
    | null => exact absurd hv (by simp)
    | bool b => exact absurd hv (by simp)
    | int n => exact absurd hv (by simp)
    | float q => exact absurd hv (by simp)
    | arr xs => exact absurd hv (by simp)
    | obj fs => exact absurd hv (by simp)

/-- On boolean `enabled` values, the planner's truthiness test
coincides with the claim's `enabled = true` test. -/
theorem moduleEnabled_eq_claim (modules : JObj) (name : String)
    (he : (match jlookup modules name with
           | some (.obj entry) =>
             match jlookup entry "enabled" with
             | none => true
             | some (.bool _) => true
             | some _ => false
           | _ => true) = true) :
    moduleEnabled modules name =
      (match jlookup modules name with
       | some (.obj entry) =>
         jvalueBeq (jlookupD entry "enabled" .null) (.bool true)
       | _ => false) := by
  unfold moduleEnabled
  cases hm : jlookup modules name with
  | none => rfl
  | some v =>
    cases v with
    | obj entry =>
      simp only [hm] at he ⊢
      unfold jlookupD
      cases hen : jlookup entry "enabled" with
      | none => rfl
      | some w =>
        simp only [hen] at he ⊢
        cases w with
        | bool b => cases b <;> rfl
        | null => exact absurd he (by simp)
        | int n => exact absurd he (by simp)
        | float q => exact absurd he (by simp)
        | str s => exact absurd he (by simp)
        | arr xs => exact absurd he (by simp)
        | obj fs => exact absurd he (by simp)
    | null => simp only [hm]
    | bool b => simp only [hm]
    | int n => simp only [hm]
    | float q => simp only [hm]
    | str s => simp only [hm]
    | arr xs => simp only [hm]

/-- C9.  For a UIR whose targets are normalized strings and whose
`enabled` flags are booleans (both guaranteed by the validated data
model), `plan_stages` produces exactly the list the claim describes:
`PLANNING` first, then the stage of each of scene, motion, music,
character, preview, export — in that order — iff the module's
`enabled` flag is `true` and its name occurs in `intent.targets`,
and nothing else. -/
theorem C9_plan_stages_matches_claim (uir : JValue)
    (ht : targetsNormalizedStr uir = true)
    (he : enabledWellFormed uir = true) :
    plan_stages uir = plan_stages_claim uir := by
  simp only [enabledWellFormed, List.all_cons, List.all_nil,
    Bool.and_eq_true] at he
  have hsel : ∀ name : String, name ≠ "" →
      (match jlookup (modulesSection uir) name with
       | some (.obj entry) =>
         match jlookup entry "enabled" with
         | none => true
         | some (.bool _) => true
         | some _ => false
       | _ => true) = true →
      isModuleSelected (modulesSection uir) (intentTargets uir) name =
        claimModuleSelected uir name := by
    intro name hn hen
    unfold isModuleSelected claimModuleSelected
    rw [moduleEnabled_eq_claim (modulesSection uir) name hen]
    unfold intentTargets
    rw [targets_contains_eq (rawTargets uir) name hn
      (by simpa [targetsNormalizedStr] using ht)]
  unfold plan_stages plan_stages_claim
  dsimp only
  rw [hsel "scene" (by decide) he.1,
    hsel "motion" (by decide) he.2.1,
    hsel "music" (by decide) he.2.2.1,
    hsel "character" (by decide) he.2.2.2.1,
    hsel "preview" (by decide) he.2.2.2.2.1,
    hsel "export" (by decide) he.2.2.2.2.2.1]

/-- Witness for C9 on the concrete fixture. -/
theorem C9_plan_stages_matches_claim_witness :
    targetsNormalizedStr fixUir = true ∧ enabledWellFormed fixUir = true ∧
    plan_stages fixUir = plan_stages_claim fixUir :=
  ⟨rfl, rfl, C9_plan_stages_matches_claim fixUir rfl rfl⟩

/-- C8, counterexample.  UIR validation accepts a music duration of
100 and of 2 (both outside `[3, 60]`), and with no module duration it
accepts an effective (defaulted) duration of 100 — the claim that
validation succeeds only for durations in `[3, 60]` is false.  The
`Music` model (models.py lines 125-131) bounds `duration_s` only by
`ge=1`. -/
theorem C8_counterexample :
    (parse_uir (c8u (.int 100))).isOk = true ∧
    (parse_uir (c8u (.int 2))).isOk = true ∧
    (parse_uir c8uNoDur).isOk = true ∧
    (match parse_uir c8uNoDur with
     | .ok m => m.modules.music.duration_s
     | .error _ => none) = some 100 :=
  ⟨rfl, rfl, rfl, rfl⟩

/-- On the `c8u` family, `parse_uir` factors through the music-module
parse followed by the concrete continuations. -/
theorem c8_parse_eq (dv : JValue) :
    parse_uir (c8u dv) =
      Except.bind (Except.bind (parseMusic (c8m dv)) c8modRest) c8topRest :=
  rfl

/-- C8, amended.  On the music-enabled family `c8u d`, UIR validation
succeeds exactly when the duration is ≥ 1 (the `confloat(ge=1)`
bound); the `[3, 60]` band is enforced not by UIR validation but by
the music adapter's `validate` (musicgpt_cli.py lines 32-36), which
accepts exactly `3 ≤ d ≤ 60`. -/
theorem C8_music_duration_bounds (d : ℚ) :
    (parse_uir (c8u (.float d))).isOk = decide (1 ≤ d) ∧
    (musicgptValidateDuration (c8fields (.float d))).isOk =
      decide (3 ≤ d ∧ d ≤ 60) := by
  constructor
  · by_cases h : (1 : ℚ) ≤ d
    · have hmus : parseMusic (c8m (.float d)) =
          .ok ⟨true, some "m", some d, none, none, none, []⟩ := by
        unfold parseMusic
        show Except.bind (Except.ok true) _ = _
        rw [Except.bind]
        show Except.bind (Except.ok (some "m")) _ = _
        rw [Except.bind]
        show Except.bind (if (1:ℚ) ≤ d then Except.ok (some d)
          else Except.error "duration_s: below minimum") _ = _
        rw [if_pos h]
        rfl
      rw [c8_parse_eq (.float d), hmus]
      have hd : decide (1 ≤ d) = true := by simp [h]
      rw [hd]
      rfl
    · have hmus : parseMusic (c8m (.float d)) =
          .error "duration_s: below minimum" := by
        unfold parseMusic
        show Except.bind (Except.ok true) _ = _
        rw [Except.bind]
        show Except.bind (Except.ok (some "m")) _ = _
        rw [Except.bind]
        show Except.bind (if (1:ℚ) ≤ d then Except.ok (some d)
          else Except.error "duration_s: below minimum") _ = _
        rw [if_neg h]
        rfl
      rw [c8_parse_eq (.float d), hmus]
      have hd : decide (1 ≤ d) = false := by simp [h]
      rw [hd]
      rfl
  · show (if d < 3 ∨ d > 60
        then (Except.error "duration_s must be between 3 and 60" : Except String ℚ)
        else .ok d).isOk = _
    by_cases h3 : d < 3
    · have hc : ¬(3 ≤ d ∧ d ≤ 60) := fun hcon => absurd h3 (not_lt.mpr hcon.1)
      rw [if_pos (Or.inl h3)]
      simp [Except.isOk, Except.toBool, hc]
    · by_cases h60 : d > 60
      · have hc : ¬(3 ≤ d ∧ d ≤ 60) := fun hcon => absurd h60 (not_lt.mpr hcon.2)
        rw [if_pos (Or.inr h60)]
        simp [Except.isOk, Except.toBool, hc]
      · have hc : 3 ≤ d ∧ d ≤ 60 := ⟨not_lt.mp h3, not_lt.mp h60⟩
        rw [if_neg (fun hcon => hcon.elim h3 h60)]
        simp [Except.isOk, Except.toBool, hc]

theorem jlookup_cons (k0 : String) (v0 : JValue) (rest : JObj) (k : String) :
    jlookup ((k0, v0) :: rest) k = if k0 = k then some v0 else jlookup rest k := by
  unfold jlookup
  by_cases h : k0 = k
  · simp [List.find?_cons, h]
  · simp [List.find?_cons, h]

theorem jlookup_mapAtKey (fields : JObj) (K : String) (g : JValue → JValue)
    (k : String) :
    jlookup (mapAtKey fields K g) k =
      if k = K then (jlookup fields K).map g else jlookup fields k := by
  by_cases hkK : k = K
  · subst hkK
    rw [if_pos rfl]
    induction fields with
    | nil => rfl
    | cons kv rest ih =>
      obtain ⟨k0, v0⟩ := kv
      simp only [mapAtKey] at ih
      by_cases h0 : k0 = k
      · subst h0
        simp [mapAtKey, jlookup_cons]
      · simp [mapAtKey, jlookup_cons, h0, ih]
  · rw [if_neg hkK]
    induction fields with
    | nil => rfl
    | cons kv rest ih =>
      obtain ⟨k0, v0⟩ := kv
      simp only [mapAtKey] at ih
      by_cases h0 : k0 = K
      · subst h0
        have hne : ¬ k0 = k := fun he => hkK he.symm
        simp [mapAtKey, jlookup_cons, hne, ih]
      · by_cases hk0 : k0 = k
        · subst hk0
          simp [mapAtKey, jlookup_cons, h0]
        · simp [mapAtKey, jlookup_cons, h0, hk0, ih]

theorem extrasOf_mapAtKey (fields : JObj) (K : String) (g : JValue → JValue)
    (declared : List String) (hK : declared.contains K = true) :
    extrasOf (mapAtKey fields K g) declared = extrasOf fields declared := by
  induction fields with
  | nil => rfl
  | cons kv rest ih =>
    obtain ⟨k0, v0⟩ := kv
    simp only [mapAtKey] at ih
    unfold extrasOf at ih ⊢
    by_cases h0 : k0 = K
    · subst h0
      have hK2 : k0 ∈ declared := by simpa using hK
      simp only [mapAtKey, List.map_cons, if_pos rfl, List.filter_cons]
      simp [hK2]
      simpa using ih
    · simp only [mapAtKey, List.map_cons, if_neg h0, List.filter_cons]
      cases hc : declared.contains k0 with
      | true => simpa [hc] using ih
      | false => simpa [hc] using ih

theorem except_bind_ok {α β : Type} {x : Except String α}
    {f : α → Except String β} {b : β} (h : x >>= f = .ok b) :
    ∃ a, x = .ok a ∧ f a = .ok b := by
  cases x with
  | ok a => exact ⟨a, rfl, h⟩
  | error e => exact Except.noConfusion h

theorem except_bind_ok_eq {α β : Type} (a : α) (f : α → Except String β) :
    (Except.ok a >>= f) = f a := rfl

theorem reqStrMin_congr (fs fs2 : JObj) (name : String) (n : Nat)
    (h : jlookup fs name = jlookup fs2 name) :
    reqStrMin fs name n = reqStrMin fs2 name n := by
  unfold reqStrMin; rw [h]

theorem optStrMin_congr (fs fs2 : JObj) (name : String) (n : Nat)
    (h : jlookup fs name = jlookup fs2 name) :
    optStrMin fs name n = optStrMin fs2 name n := by
  unfold optStrMin; rw [h]

theorem optObjF_congr (fs fs2 : JObj) (name : String)
    (h : jlookup fs name = jlookup fs2 name) :
    optObjF fs name = optObjF fs2 name := by
  unfold optObjF; rw [h]

theorem optStrListMin_congr (fs fs2 : JObj) (name : String) (n : Nat)
    (h : jlookup fs name = jlookup fs2 name) :
    optStrListMin fs name n = optStrListMin fs2 name n := by
  unfold optStrListMin; rw [h]

/-- Replacing `created_at` in a job object that parses successfully
re-parses to the same model with the new `created_at`. -/
theorem parseJobSec_set (jfs : JObj) (c : String) (j : JobSec)
    (hc : isIsoDatetime c = true)
    (h : parseJobSec (some (.obj jfs)) = .ok j) :
    parseJobSec (some (.obj (mapAtKey jfs "created_at" (fun _ => .str c)))) =
      .ok { j with created_at := c } := by
  have hid : reqStrMin (mapAtKey jfs "created_at" (fun _ => .str c)) "id" 1 =
      reqStrMin jfs "id" 1 :=
    reqStrMin_congr _ _ _ _
      (by rw [jlookup_mapAtKey, if_neg (by decide)])
  have hca : jlookup (mapAtKey jfs "created_at" (fun _ => .str c))
      "created_at" = (jlookup jfs "created_at").map (fun _ => .str c) := by
    rw [jlookup_mapAtKey, if_pos rfl]
  have htitle : optStrMin (mapAtKey jfs "created_at" (fun _ => .str c))
      "title" 1 = optStrMin jfs "title" 1 :=
    optStrMin_congr _ _ _ _
      (by rw [jlookup_mapAtKey, if_neg (by decide)])
  have hclient : optObjF (mapAtKey jfs "created_at" (fun _ => .str c))
      "client" = optObjF jfs "client" :=
    optObjF_congr _ _ _
      (by rw [jlookup_mapAtKey, if_neg (by decide)])
  have htags : optStrListMin (mapAtKey jfs "created_at" (fun _ => .str c))
      "tags" 1 = optStrListMin jfs "tags" 1 :=
    optStrListMin_congr _ _ _ _
      (by rw [jlookup_mapAtKey, if_neg (by decide)])
  have hparent : optStrMin (mapAtKey jfs "created_at" (fun _ => .str c))
      "parent_job_id" 1 = optStrMin jfs "parent_job_id" 1 :=
    optStrMin_congr _ _ _ _
      (by rw [jlookup_mapAtKey, if_neg (by decide)])
  have hextras : extrasOf (mapAtKey jfs "created_at" (fun _ => .str c))
      JobSec.declared = extrasOf jfs JobSec.declared :=
    extrasOf_mapAtKey _ _ _ _ (by decide)
  unfold parseJobSec at h ⊢
  dsimp only at h ⊢
  simp only [hid, hca, htitle, hclient, htags, hparent, hextras]
  obtain ⟨idv, hidv, h⟩ := except_bind_ok h
  try dsimp only at h
  simp only [hidv, except_bind_ok_eq]
  cases hcav : jlookup jfs "created_at" with
  | none => rw [hcav] at h; exact Except.noConfusion h
  | some cav =>
    rw [hcav] at h
    try dsimp only at h
    simp only [hcav, Option.map]
    cases cav with
    | str s0 =>
      try dsimp only at h ⊢
      by_cases hds : isIsoDatetime s0
      · rw [if_pos hds] at h
        rw [if_pos hc]
        simp only [except_bind_ok_eq] at h ⊢
        try dsimp only at h ⊢
        obtain ⟨titlev, htv, h⟩ := except_bind_ok h
        simp only [htv, except_bind_ok_eq]
        obtain ⟨clientv, hcv, h⟩ := except_bind_ok h
        simp only [hcv, except_bind_ok_eq]
        obtain ⟨tagsv, htgv, h⟩ := except_bind_ok h
        simp only [htgv, except_bind_ok_eq]
        obtain ⟨parentv, hpv, h⟩ := except_bind_ok h
        simp only [hpv, except_bind_ok_eq]
        cases h
        rfl
      · rw [if_neg hds] at h
        exact Except.noConfusion h
    | null => exact Except.noConfusion h
    | bool b => exact Except.noConfusion h
    | int n => exact Except.noConfusion h
    | float q => exact Except.noConfusion h
    | arr xs => exact Except.noConfusion h
    | obj fs2 => exact Except.noConfusion h

theorem appDD_job_comm (u : UIR) (jb : JobSec) :
    applyDurationDefaults { u with job := jb } =
      { applyDurationDefaults u with job := jb } := rfl

theorem semanticErrors_job_comm (u : UIR) (jb : JobSec) :
    semanticErrors { u with job := jb } = semanticErrors u := rfl

/-- Replacing the top-level `job.created_at` of a UIR dict that parses
successfully re-parses to the same model with only `job.created_at`
changed. -/
theorem parse_uir_set (fs : JObj) (c : String) (m : UIR)
    (hc : isIsoDatetime c = true)
    (h : parse_uir (.obj fs) = .ok m) :
    parse_uir (setJobCreatedAt (.obj fs) c) =
      .ok { m with job := { m.job with created_at := c } } := by
  have hver : jlookup (mapAtKey fs "job" (fun jv => setCreatedAtInJob jv c))
      "uir_version" = jlookup fs "uir_version" := by
    rw [jlookup_mapAtKey, if_neg (by decide)]
  have hjob : jlookup (mapAtKey fs "job" (fun jv => setCreatedAtInJob jv c))
      "job" = (jlookup fs "job").map (fun jv => setCreatedAtInJob jv c) := by
    rw [jlookup_mapAtKey, if_pos rfl]
  have hinput : jlookup (mapAtKey fs "job" (fun jv => setCreatedAtInJob jv c))
      "input" = jlookup fs "input" := by
    rw [jlookup_mapAtKey, if_neg (by decide)]
  have hintent : jlookup (mapAtKey fs "job" (fun jv => setCreatedAtInJob jv c))
      "intent" = jlookup fs "intent" := by
    rw [jlookup_mapAtKey, if_neg (by decide)]
  have hrouting : jlookup (mapAtKey fs "job" (fun jv => setCreatedAtInJob jv c))
      "routing" = jlookup fs "routing" := by
    rw [jlookup_mapAtKey, if_neg (by decide)]
  have hmodules : jlookup (mapAtKey fs "job" (fun jv => setCreatedAtInJob jv c))
      "modules" = jlookup fs "modules" := by
    rw [jlookup_mapAtKey, if_neg (by decide)]
  have hcons : jlookup (mapAtKey fs "job" (fun jv => setCreatedAtInJob jv c))
      "constraints" = jlookup fs "constraints" := by
    rw [jlookup_mapAtKey, if_neg (by decide)]
  have hruntime : jlookup (mapAtKey fs "job" (fun jv => setCreatedAtInJob jv c))
      "runtime" = jlookup fs "runtime" := by
    rw [jlookup_mapAtKey, if_neg (by decide)]
  have hhooks : jlookup (mapAtKey fs "job" (fun jv => setCreatedAtInJob jv c))
      "hooks" = jlookup fs "hooks" := by
    rw [jlookup_mapAtKey, if_neg (by decide)]
  have hextras : extrasOf (mapAtKey fs "job" (fun jv => setCreatedAtInJob jv c))
      UIR.declared = extrasOf fs UIR.declared :=
    extrasOf_mapAtKey _ _ _ _ (by decide)
  unfold setJobCreatedAt
  try dsimp only
  unfold parse_uir at h ⊢
  try dsimp only at h ⊢
  simp only [hver, hjob, hinput, hintent, hrouting, hmodules, hcons,
    hruntime, hhooks, hextras]
  split at h
  case _ hv =>
    try simp only [hv]
    try dsimp only at h ⊢
    try simp only [except_bind_ok_eq] at h ⊢
    obtain ⟨jobv, hjobv, h⟩ := except_bind_ok h
    try dsimp only at h
    cases hjv : jlookup fs "job" with
    | none => rw [hjv] at hjobv; exact Except.noConfusion hjobv
    | some jv =>
      rw [hjv] at hjobv
      simp only [hjv, Option.map]
      cases jv with
      | obj jfs2 =>
        have hset := parseJobSec_set jfs2 c jobv hc hjobv
        try simp only [setCreatedAtInJob]
        try simp only [hset, except_bind_ok_eq]
        obtain ⟨inputv, hiv, h⟩ := except_bind_ok h
        try dsimp only at h
        try simp only [hiv, except_bind_ok_eq]
        obtain ⟨intentv, hintv, h⟩ := except_bind_ok h
        try dsimp only at h
        try simp only [hintv, except_bind_ok_eq]
        obtain ⟨routingv, hrv, h⟩ := except_bind_ok h
        try dsimp only at h
        try simp only [hrv, except_bind_ok_eq]
        obtain ⟨modulesv, hmv, h⟩ := except_bind_ok h
        try dsimp only at h
        try simp only [hmv, except_bind_ok_eq]
        obtain ⟨consv, hcv, h⟩ := except_bind_ok h
        try dsimp only at h
        try simp only [hcv, except_bind_ok_eq]
        obtain ⟨runtimev, hrtv, h⟩ := except_bind_ok h
        try dsimp only at h
        try simp only [hrtv, except_bind_ok_eq]
        obtain ⟨hooksv, hhv, h⟩ := except_bind_ok h
        try dsimp only at h
        try simp only [hhv, except_bind_ok_eq]
        have hsem2 : semanticErrors (applyDurationDefaults
            ⟨"1.0", { jobv with created_at := c }, inputv, intentv, routingv,
              modulesv, consv, runtimev, hooksv, extrasOf fs UIR.declared⟩) =
            semanticErrors (applyDurationDefaults
            ⟨"1.0", jobv, inputv, intentv, routingv, modulesv, consv,
              runtimev, hooksv, extrasOf fs UIR.declared⟩) := rfl
        rw [hsem2]
        cases hse : semanticErrors (applyDurationDefaults
            ⟨"1.0", jobv, inputv, intentv, routingv, modulesv, consv,
              runtimev, hooksv, extrasOf fs UIR.declared⟩) with
        | nil =>
          simp only [hse]
          rw [hse] at h
          cases h
          rfl
        | cons e tail =>
          rw [hse] at h
          exact Except.noConfusion h
      | null => exact Except.noConfusion hjobv
      | bool b => exact Except.noConfusion hjobv
      | int n => exact Except.noConfusion hjobv
      | float q => exact Except.noConfusion hjobv
      | str sv => exact Except.noConfusion hjobv
      | arr xs => exact Except.noConfusion hjobv
  case _ val hv hne =>
    obtain ⟨y, hy, _⟩ := except_bind_ok h
    exact Except.noConfusion hy
  case _ hv =>
    obtain ⟨y, hy, _⟩ := except_bind_ok h
    exact Except.noConfusion hy

/-- C6.  Replacing the top-level `job.created_at` value of a valid UIR
dictionary with any (well-formed) datetime string leaves `stable_hash`
unchanged: two valid UIRs equal except for `job.created_at` hash
identically. -/
theorem C6_stable_hash_ignores_job_created_at (u : JValue) (c : String)
    (hc : isIsoDatetime c = true) (hok : (parse_uir u).isOk = true) :
    stable_hash (setJobCreatedAt u c) = stable_hash u := by
  cases u with
  | obj fs =>
    cases hp : parse_uir (.obj fs) with
    | error e =>
      rw [hp] at hok
      exact absurd hok (by simp [Except.isOk, Except.toBool])
    | ok m =>
      have hp2 := parse_uir_set fs c m hc hp
      unfold stable_hash canonicalPayload
      rw [hp, hp2]
      have hstrip : stripKeys ["created_at"]
          (UIR.toJson { m with job := { m.job with created_at := c } }) =
          stripKeys ["created_at"] (UIR.toJson m) := rfl
      simp only [Except.map]
      rw [hstrip]
  | null =>
    rw [show parse_uir .null = .error "UIR payload must be a JSON object"
      from rfl] at hok
    exact absurd hok (by simp [Except.isOk, Except.toBool])
  | bool b => exact absurd hok (by simp [parse_uir, Except.isOk, Except.toBool])
  | int n => exact absurd hok (by simp [parse_uir, Except.isOk, Except.toBool])
  | float q => exact absurd hok (by simp [parse_uir, Except.isOk, Except.toBool])
  | str sv => exact absurd hok (by simp [parse_uir, Except.isOk, Except.toBool])
  | arr xs => exact absurd hok (by simp [parse_uir, Except.isOk, Except.toBool])

/-- Witness for C6 at a concrete valid UIR and replacement datetime. -/
theorem C6_stable_hash_ignores_job_created_at_witness :
    isIsoDatetime "2031-05-05T10:00:00Z" = true ∧
    (parse_uir (c7u "nested")).isOk = true ∧
    stable_hash (setJobCreatedAt (c7u "nested") "2031-05-05T10:00:00Z") =
      stable_hash (c7u "nested") :=
  ⟨rfl, rfl, C6_stable_hash_ignores_job_created_at (c7u "nested")
    "2031-05-05T10:00:00Z" rfl rfl⟩

end Orch
